import Mathlib

/-!
Verification development for the Pixel-Myth-Wukong combat simulation.

This file is a shallow embedding of the repository's simulation core:

* `src/components/GameCanvas.tsx` — the `update` callback (one fixed-step
  simulation tick: player state machine, combat resolution, boss AI,
  entity collision, particles, camera) and the `loop` frame driver;
* `src/services/geminiService.ts` — `generateLevelLore` and its fallbacks;
* `src/types.ts` — the `Entity`, `Particle`, `LevelData` shapes and the
  `GameState` enum.

Modelling conventions:

* JavaScript numbers are modelled as `ℚ`.  Frame counters and timers
  (cooldowns, `animFrame`, `hitStop`, ...) only ever move by integer steps
  in the source, so they are modelled as `ℕ` (all decrements in the source
  are guarded by a positivity test, matching truncated subtraction).
* `Math.random()` is modelled by an explicit stream `rng : ℕ → ℚ` of draws
  together with a cursor `ri` carried in the world state; every call site
  of `Math.random()` consumes one draw, in source order.
* `Math.cos` / `Math.sin` (used only by the combo-4 staff sweep) are
  modelled by an oracle `TrigOracle` passed to the step function; no claim
  depends on their numeric values.
* `Math.sqrt(d2) < r` (radial hit checks) is modelled by the equivalent
  comparison `0 ≤ r ∧ d2 < r^2`.
* Sound playback (`playSound`, `initAudio`, the BGM scheduler) is output
  I/O that reads no simulation state and writes none; it is not modelled.
* The `setTimeout` in the boss `jump_smash` recovery (GameCanvas.tsx:1520)
  runs on wall-clock time outside the fixed-step tick; its later effect
  (`attack` → `idle` after 500 ms) is outside the per-tick step function
  modelled here and is not part of any per-tick claim.
* The React setters (`setPlayerHealth`, `setBossHealth`, `setStamina`,
  `setScore`, `setGameState`) are modelled as fields of the world record
  (`reportedPlayerHealth`, `reportedBossHealth`, `stamina`, `score`,
  `gameState`) holding the values most recently pushed to the UI layer.
-/

namespace Wukong

/-- Coarse game-state enum from `src/types.ts`. -/
inductive GameState where
  | MENU
  | LOADING
  | PLAYING
  | GAME_OVER
  | VICTORY
deriving DecidableEq

/-- Entity state tags.  `src/types.ts` lists the union for `Entity.state`;
`GameCanvas.tsx` additionally assigns `'kowtow_attack'` to the boss
(lines 1361/1394), so that tag is included here as well. -/
inductive EState where
  | idle
  | run
  | jump
  | fall
  | attack
  | air_attack
  | heavy_attack
  | dodge
  | hit
  | jump_smash
  | standoff
  | kowtow_attack
deriving DecidableEq

/-- The `type` field of `Entity` (`'player' | 'enemy' | 'boss'`). -/
inductive EntityKind where
  | player
  | enemy
  | boss
deriving DecidableEq

/-- The `bossBehavior` debug parameter (`'normal' | 'idle' | 'kowtow'`). -/
inductive BossBehavior where
  | normal
  | idle
  | kowtow
deriving DecidableEq

/-- `Particle` from `src/types.ts`. -/
structure Particle where
  x : ℚ
  y : ℚ
  vx : ℚ
  vy : ℚ
  life : ℚ
  color : String
  size : ℚ
deriving DecidableEq

/-- A combo-4 staff trail entry (`combo4TrailsRef`: `{ angle, life }`). -/
structure Trail where
  angle : ℚ
  life : ℚ
deriving DecidableEq

/-- `Entity` from `src/types.ts` (position flattened to `posX`/`posY`).
The optional fields (`hasHitInAir`, `hasDealtDamage`, `spellCooldown`,
`isImmobilized`, `immobilizeTimer`, `immobilizeDamageTaken`) are modelled
as total fields; the source initialises all of them for the entity that
reads them and reads the absent ones only through truthiness tests that
agree with the defaults used here. -/
structure Entity where
  posX : ℚ
  posY : ℚ
  width : ℚ
  height : ℚ
  vx : ℚ
  vy : ℚ
  health : ℚ
  maxHealth : ℚ
  isDead : Bool
  facingRight : Bool
  etype : EntityKind
  state : EState
  attackCooldown : ℕ
  dodgeCooldown : ℕ
  chargeTimer : ℕ
  comboCount : ℕ
  comboWindow : ℕ
  animFrame : ℕ
  animTimer : ℕ
  hasHitInAir : Bool
  hasDealtDamage : Bool
  hitStop : ℕ
  spellCooldown : ℕ
  isImmobilized : Bool
  immobilizeTimer : ℕ
  immobilizeDamageTaken : ℚ
deriving DecidableEq

/-- One tick's key state (`keysRef`), read once per tick:
`KeyJ` (attack), `ShiftLeft`/`KeyL` (dodge), `KeyK` (spell),
`ArrowRight`/`KeyD`, `ArrowLeft`/`KeyA`, `Space`. -/
structure Input where
  attack : Bool
  dodge : Bool
  spell : Bool
  right : Bool
  left : Bool
  jump : Bool
deriving DecidableEq

/-- The debug parameters of `debugParamsRef` that the `update` callback
reads (GameCanvas.tsx:697-700). -/
structure DebugParams where
  trailDecay : ℚ
  trailStep : ℚ
  bossBehavior : BossBehavior
  infiniteHealth : Bool
  infinitePlayerHealth : Bool
  c3Rotations : ℚ
  c3Speed : ℚ
  c3ExtraHits : ℕ
  c3TotalDamage : ℚ
  c3Stun : ℕ
  c3Radius : ℚ
deriving DecidableEq

/-- The default debug parameters (GameCanvas.tsx:95-128). -/
def defaultDebugParams : DebugParams where
  trailDecay := 2/10
  trailStep := 2/10
  bossBehavior := BossBehavior.normal
  infiniteHealth := false
  infinitePlayerHealth := false
  c3Rotations := 2
  c3Speed := 50
  c3ExtraHits := 10
  c3TotalDamage := 45
  c3Stun := 3
  c3Radius := 100

/-- Oracle for `Math.cos` / `Math.sin`, used only by the combo-4 sweep. -/
structure TrigOracle where
  cos : ℚ → ℚ
  sin : ℚ → ℚ

/-- A stream of `Math.random()` results. -/
abbrev Rng := ℕ → ℚ

/-- The mutable state owned by the `GameCanvas` component that the
simulation tick reads and writes: the two entities, the particle pool,
combo trackers, camera/shake, and the values last pushed through the
React setters.  `ri` is the cursor into the `Math.random()` stream. -/
structure World where
  player : Entity
  boss : Entity
  particles : List Particle
  combo4Trails : List Trail
  prevCombo4Time : Option ℚ
  c3Hits : ℤ
  cameraX : ℚ
  shake : ℚ
  stamina : ℚ
  score : ℚ
  reportedPlayerHealth : ℚ
  reportedBossHealth : ℚ
  gameState : GameState
  ri : ℕ
deriving DecidableEq

-- Game constants (GameCanvas.tsx:5-31).

def GRAVITY : ℚ := 6/10
def FRICTION : ℚ := 8/10
def MOVE_SPEED : ℚ := 12/10
def MAX_SPEED : ℚ := 5
def JUMP_FORCE : ℚ := -13
def GROUND_Y : ℚ := 400
def ATTACK_RANGE : ℚ := 90
def ATTACK_DAMAGE : ℚ := 12
def COMBO_2_DAMAGE : ℚ := 18
def COMBO_4_SLAM_DAMAGE : ℚ := 45
def HEAVY_ATTACK_DAMAGE : ℚ := 60
def HEAVY_ATTACK_RANGE : ℚ := 300
def AIR_ATTACK_DAMAGE : ℚ := 8
def DODGE_SPEED : ℚ := 18
def DODGE_COOLDOWN : ℕ := 40
def DODGE_STAMINA_COST : ℚ := 20
def BOSS_DAMAGE : ℚ := 15
def BOSS_KOWTOW_DAMAGE : ℚ := 25
def CHARGE_THRESHOLD : ℕ := 20
def COMBO_WINDOW_FRAMES : ℕ := 50
def IMMOBILIZE_BREAK_THRESHOLD : ℚ := 80

-- Math helpers (GameCanvas.tsx:41-61).

def lerp (start finish t : ℚ) : ℚ := start * (1 - t) + finish * t

def easeOutQuad (t : ℚ) : ℚ := t * (2 - t)

def easeInOutQuad (t : ℚ) : ℚ := if t < 1/2 then 2*t*t else -1 + (4 - 2*t)*t

def easeInCubic (t : ℚ) : ℚ := t * t * t

def C4_START_ANGLE : ℚ := -5/2
def C4_END_ANGLE : ℚ := 9/5
def C4_STAFF_LENGTH : ℚ := 150

/-- `getCombo4AngleFromT` (GameCanvas.tsx:53-61). -/
def getCombo4AngleFromT (t : ℚ) : ℚ :=
  if t ≤ 5 then C4_START_ANGLE
  else if t ≥ 10 then C4_END_ANGLE
  else lerp C4_START_ANGLE C4_END_ANGLE (easeInCubic ((t - 5) / 5))

/-- The repeated infinite-health interception pattern
(GameCanvas.tsx:1149-1154, 1450-1454, 1503-1507): with the debug flag on,
a hit that would bring health to `≤ 0` resets it to `maxHealth`; otherwise
the damage is subtracted with no clamp. -/
def applyDamage (infinite : Bool) (maxH h dmg : ℚ) : ℚ :=
  if infinite = true ∧ h - dmg ≤ 0 then maxH else h - dmg

/-- Consume one `Math.random()` draw from the stream at cursor `ri`. -/
def rand (rng : Rng) (ri : ℕ) : ℚ × ℕ :=
  (rng ri, ri + 1)

/-- `createParticles` (GameCanvas.tsx:635-646): pushes `count` particles
onto the pool, each consuming three draws (`vx`, `vy`, `size`) in source
order.  Takes and returns the particle pool and the draw cursor — the
only world state this helper touches. -/
def createParticles (rng : Rng) (x y : ℚ) (color : String) (count : ℕ)
    (speed : ℚ) (ps : List Particle) (ri : ℕ) : List Particle × ℕ :=
  match count with
  | 0 => (ps, ri)
  | n+1 =>
    let (r1, ri) := rand rng ri
    let (r2, ri) := rand rng ri
    let (r3, ri) := rand rng ri
    let ps := ps ++
      [{ x := x, y := y, vx := (r1 - 1/2) * speed, vy := (r2 - 1/2) * speed,
         life := 1, color := color, size := r3 * 3 + 2 }]
    createParticles rng x y color n speed ps ri

/-- Merge a `createParticles` result back into the world. -/
def withParticles (w : World) (pr : List Particle × ℕ) : World :=
  match pr with
  | (ps, ri) => { w with particles := ps, ri := ri }

-- Narrative service (src/services/geminiService.ts).

/-- `LevelData` from `src/types.ts`. -/
structure LevelData where
  chapterTitle : String
  introText : String
  bossName : String
  bossDescription : String
deriving DecidableEq

/-- The environment `generateLevelLore` runs in: no API key configured,
the remote call failing (network error, empty text, bad JSON), or the
remote call succeeding with some parsed record. -/
inductive LoreOutcome where
  | noApiKey
  | apiFailure
  | apiSuccess (d : LevelData)
deriving DecidableEq

/-- `generateLevelLore` (geminiService.ts:7-51): with no API key it
returns the 黑风山 fallback record (lines 10-15); when the call throws or
returns no text it returns the 花果山 fallback record (lines 44-49);
otherwise it returns the parsed response. -/
def generateLevelLore : LoreOutcome → LevelData
  | LoreOutcome.noApiKey =>
    { chapterTitle := "第一回: 黑风山"
      introText := "三界四洲，万物有灵。昔日大圣以此为家，如今只余焦土与哀鸣。风起之处，必有妖邪。"
      bossName := "黑风大王"
      bossDescription := "占据黑风洞的黑熊精，贪婪成性，力大无穷，曾觊觎锦襕袈裟。" }
  | LoreOutcome.apiFailure =>
    { chapterTitle := "第一回: 花果山"
      introText := "迷雾遮蔽了归途，同族的呼唤在山谷回荡。你必须重拾天命，哪怕前路是万丈深渊。"
      bossName := "石先锋"
      bossDescription := "上古灵石化作的巨怪，坚不可摧，守护着古老的秘密。" }
  | LoreOutcome.apiSuccess d => d

-- Fixed-step driver (GameCanvas.tsx:2186-2207).

def FIXED_TIME_STEP : ℚ := 1000 / 60

/-- The `while (accumulator >= FIXED_TIME_STEP)` loop of `loop`
(GameCanvas.tsx:2200-2203): returns the number of `update()` calls and
the remaining accumulator. -/
def drain (a : ℚ) : ℕ × ℚ :=
  if h : FIXED_TIME_STEP ≤ a then
    let r := drain (a - FIXED_TIME_STEP)
    (r.1 + 1, r.2)
  else (0, a)
termination_by (⌊a / FIXED_TIME_STEP⌋).toNat
decreasing_by
  have hT : (0:ℚ) < FIXED_TIME_STEP := by norm_num [FIXED_TIME_STEP]
  have h1 : (1:ℚ) ≤ a / FIXED_TIME_STEP := (le_div_iff₀ hT).2 (by linarith)
  have h2 : (1:ℤ) ≤ ⌊a / FIXED_TIME_STEP⌋ := Int.le_floor.2 (by exact_mod_cast h1)
  have h3 : ⌊(a - FIXED_TIME_STEP) / FIXED_TIME_STEP⌋ = ⌊a / FIXED_TIME_STEP⌋ - 1 := by
    have he : (a - FIXED_TIME_STEP) / FIXED_TIME_STEP = a / FIXED_TIME_STEP - 1 := by
      field_simp
    rw [he]
    exact_mod_cast Int.floor_sub_int (a / FIXED_TIME_STEP) 1
  omega

/-- One frame of `loop` (GameCanvas.tsx:2193-2205): add the elapsed
`delta` to the accumulator, cap at 100 ms, run `update()` while a full
tick fits, then `draw()` exactly once.  Returns (number of `update()`
calls, new accumulator, number of `draw()` calls). -/
def frameStep (acc delta : ℚ) : ℕ × ℚ × ℕ :=
  let a0 := acc + delta
  let a1 := if a0 > 100 then (100:ℚ) else a0
  let r := drain a1
  (r.1, r.2, 1)

end Wukong

namespace Wukong

-- Player phase (GameCanvas.tsx:702-1341), split by source section.

/-- `c3TotalFrames` (GameCanvas.tsx:1003): `Math.ceil((c3Rotations * 360) / c3Speed)`. -/
def c3TotalFrames (dp : DebugParams) : ℕ := (⌈dp.c3Rotations * 360 / dp.c3Speed⌉).toNat

/-- Cooldown decay and combo-chain expiry (GameCanvas.tsx:708-715). -/
def cooldownStep (w : World) : World :=
  let p := w.player
  let p := if p.attackCooldown > 0 then { p with attackCooldown := p.attackCooldown - 1 } else p
  let p := if p.dodgeCooldown > 0 then { p with dodgeCooldown := p.dodgeCooldown - 1 } else p
  let p := if p.comboWindow > 0 then { p with comboWindow := p.comboWindow - 1 } else p
  let p := if p.spellCooldown > 0 then { p with spellCooldown := p.spellCooldown - 1 } else p
  let p := if p.comboWindow = 0 ∧ p.state ≠ EState.attack then { p with comboCount := 0 } else p
  { w with player := p }

/-- Decay pass over `combo4TrailsRef` (GameCanvas.tsx:719-724). -/
def trailDecayList (dp : DebugParams) (ts : List Trail) : List Trail :=
  ts.filterMap fun t =>
    let t' := { t with life := t.life - dp.trailDecay }
    if t'.life ≤ 0 then none else some t'

/-- The `while (simT <= currentT)` supersampling loop
(GameCanvas.tsx:749-765).  The fuel argument is an upper bound on the
iteration count, chosen by the caller so that the loop runs to its
natural exit whenever `trailStep > 0` (the source loop does not
terminate for `trailStep ≤ 0`). -/
def trailFill (dp : DebugParams) (currentT : ℚ) : ℕ → ℚ → List Trail → List Trail
  | 0, _, acc => acc
  | fuel+1, simT, acc =>
    if simT ≤ currentT then
      let angle := getCombo4AngleFromT simT
      let age := currentT - simT
      let lifeStart := 1/2 - age * dp.trailDecay
      let acc := if lifeStart > 0 then acc ++ [{ angle := angle, life := lifeStart }] else acc
      trailFill dp currentT fuel (simT + dp.trailStep) acc
    else acc

/-- Trail system update (GameCanvas.tsx:717-777). -/
def trailStep (dp : DebugParams) (w : World) : World :=
  let p := w.player
  let w := { w with combo4Trails := trailDecayList dp w.combo4Trails }
  if p.state = EState.attack ∧ p.comboCount = 4 then
    let currentT : ℚ := (p.animFrame : ℚ) + (p.animTimer : ℚ) / 1
    if 5 ≤ p.animFrame ∧ p.animFrame ≤ 10 ∧ p.hitStop = 0 then
      match w.prevCombo4Time with
      | none =>
        { w with prevCombo4Time := some currentT,
                 combo4Trails := w.combo4Trails ++
                   [{ angle := getCombo4AngleFromT currentT, life := 1/2 }] }
      | some prevT =>
        let w := if currentT > prevT then
            let simT0 := prevT + dp.trailStep
            let fuel := if 0 < dp.trailStep then (⌈(currentT - simT0) / dp.trailStep⌉).toNat + 1 else 0
            { w with combo4Trails := trailFill dp currentT fuel simT0 w.combo4Trails }
          else w
        { w with prevCombo4Time := some currentT }
    else
      if p.animFrame > 10 ∨ p.animFrame < 5 then { w with prevCombo4Time := none } else w
  else { w with prevCombo4Time := none }

/-- The spell-arc particle loop (GameCanvas.tsx:802-822): 25 bezier-arc
particles, each consuming seven draws in source order (offsetX, offsetY,
vx, vy, life, color, size). -/
def spellArc (rng : Rng) (pCx pCy cX cY bCx bCy : ℚ) :
    ℕ → ℕ → List Particle → ℕ → List Particle × ℕ
  | _, 0, ps, ri => (ps, ri)
  | i, left+1, ps, ri =>
    let t : ℚ := (i : ℚ) / 24
    let invT := 1 - t
    let lx := invT * invT * pCx + 2 * invT * t * cX + t * t * bCx
    let ly := invT * invT * pCy + 2 * invT * t * cY + t * t * bCy
    let (r1, ri) := rand rng ri
    let (r2, ri) := rand rng ri
    let (r3, ri) := rand rng ri
    let (r4, ri) := rand rng ri
    let (r5, ri) := rand rng ri
    let (r6, ri) := rand rng ri
    let (r7, ri) := rand rng ri
    let ps := ps ++
      [{ x := lx + (r1 - 1/2) * 8, y := ly + (r2 - 1/2) * 8,
         vx := (r3 - 1/2) * (2/10), vy := -(r4 * (5/10)),
         life := 4/10 + r5 * (3/10),
         color := if r6 > 1/2 then "#fbbf24" else "#fef3c7",
         size := r7 * 2 + 5/10 }]
    spellArc rng pCx pCy cX cY bCx bCy (i+1) left ps ri

/-- Immobilize spell cast (GameCanvas.tsx:783-826). -/
def spellStep (rng : Rng) (inp : Input) (w : World) : World :=
  let p := w.player
  let b := w.boss
  if inp.spell = true ∧ p.spellCooldown = 0 ∧ b.isDead = false then
    let dist := b.posX - p.posX
    let range : ℚ := 600
    let facingTarget := (p.facingRight = true ∧ dist > 0) ∨ (p.facingRight = false ∧ dist < 0)
    if facingTarget ∧ |dist| < range then
      let b := { b with isImmobilized := true, immobilizeTimer := 300, immobilizeDamageTaken := 0 }
      let w := { w with boss := b }
      let pCx := p.posX + p.width/2
      let pCy := p.posY + p.height/2
      let bCx := b.posX + b.width/2
      let bCy := b.posY + b.height/2
      let cX := (pCx + bCx) / 2
      let cY := (pCy + bCy) / 2 - 40
      let w := withParticles w (spellArc rng pCx pCy cX cY bCx bCy 0 25 w.particles w.ri)
      let w := withParticles w
        (createParticles rng (b.posX + b.width/2) (b.posY + b.height/2) "#fbbf24" 30 4
          w.particles w.ri)
      { w with player := { w.player with spellCooldown := 30 } }
    else w
  else w

/-- The shared tail of a successful attack start (GameCanvas.tsx:928-934):
default cooldown by combo index, the combo-3 zero-cooldown override, and
the active-frame counter reset. -/
def finishAttackStart (w : World) : World :=
  let p := w.player
  let p := if p.attackCooldown = 0 then
      if p.comboCount = 1 ∨ p.comboCount = 2 then { p with attackCooldown := 7 }
      else { p with attackCooldown := 11 }
    else p
  let p := if p.comboCount = 3 then { p with attackCooldown := 0 } else p
  { w with player := { p with animFrame := 0 } }

/-- The grounded combo step of a light-attack release
(GameCanvas.tsx:876-901): cyclic combo advance, launcher/slam vertical
impulses, per-combo lunge, and the combo-3 multi-hit tracker reset.  `p`
is the player record with the dedup flag already cleared (line 874). -/
def groundedComboStep (w : World) (p : Entity) : World × Bool :=
  let p := { p with state := EState.attack }
  let p := if p.comboCount > 0 then { p with comboCount := p.comboCount % 4 + 1 }
           else { p with comboCount := 1 }
  let p := if p.comboCount = 3 then { p with vy := -11/2 } else p
  let p := if p.comboCount = 4 then { p with vy := -5, attackCooldown := 30 } else p
  let lunge : ℚ := if p.comboCount = 2 then 6 else if p.comboCount = 3 then 4
                   else if p.comboCount = 4 then 2 else 3
  let p := { p with vx := if p.facingRight then lunge else -lunge }
  let w := if p.comboCount = 3 then { w with c3Hits := 0 } else w
  (finishAttackStart { w with player := p }, false)

/-- The airborne part of a light-attack release (GameCanvas.tsx:902-926):
cancel of a 3rd-combo/air-spin state into the slam, the air-spin start
when high enough, or — too close to the ground — the bare `return` at
line 923 (flagged `true`), which aborts the entire `update` call. -/
def airLightStep (w : World) (p : Entity) : World × Bool :=
  if p.comboCount = 3 ∨ p.state = EState.air_attack then
    let p := { p with state := EState.attack, comboCount := 4, vy := -5, vx := 0,
                      attackCooldown := 30, animFrame := 0, hasDealtDamage := false }
    (finishAttackStart { w with player := p }, false)
  else
    let distToGround := GROUND_Y - (p.posY + p.height)
    if distToGround > 50 then
      let p := { p with state := EState.air_attack, comboCount := 0, vy := -4,
                        attackCooldown := 15 }
      (finishAttackStart { w with player := p }, false)
    else
      ({ w with player := { p with chargeTimer := 0 } }, true)

/-- Light-attack resolution on release (GameCanvas.tsx:859-936).  The
`Bool` result is `true` exactly when the source executes the bare
`return` at line 923. -/
def resolveLightAttack (onGround : Bool) (w : World) : World × Bool :=
  let p := w.player
  let isAlreadyAttacking := p.state = EState.attack ∨ p.state = EState.heavy_attack ∨
    p.state = EState.air_attack
  let isCurrentlyAirAttack := p.state = EState.air_attack ∨
    (p.state = EState.attack ∧ p.comboCount = 3)
  let aa : Bool × Entity :=
    if onGround = false ∧ isCurrentlyAirAttack then
      if p.state = EState.air_attack then (true, p)
      else if p.hasHitInAir = false then (false, p)
      else (true, { p with hasHitInAir := false })
    else (true, p)
  match aa with
  | (allowAttack, p) =>
  if ¬isAlreadyAttacking ∨ allowAttack = true then
    let p := { p with hasDealtDamage := false }
    if onGround = true then groundedComboStep w p
    else airLightStep w p
  else ({ w with player := p }, false)

/-- Dodge trigger, charge accumulation and attack release
(GameCanvas.tsx:828-941).  The `Bool` result propagates the early
`return` of `resolveLightAttack`. -/
def playerActionStep (rng : Rng) (inp : Input) (onGround : Bool) (w : World) : World × Bool :=
  let p := w.player
  if inp.dodge = true ∧ p.dodgeCooldown = 0 ∧ p.state ≠ EState.dodge ∧ p.state ≠ EState.hit then
    let p := { p with state := EState.dodge, animFrame := 0,
                      vx := if p.facingRight then DODGE_SPEED else -DODGE_SPEED,
                      dodgeCooldown := DODGE_COOLDOWN, chargeTimer := 0 }
    let w := { w with player := p, stamina := max 0 (w.stamina - DODGE_STAMINA_COST) }
    (withParticles w (createParticles rng (p.posX + p.width/2) (p.posY + p.height)
      "#fff" 5 10 w.particles w.ri), false)
  else if p.state ≠ EState.dodge ∧ p.state ≠ EState.hit then
    if inp.attack = true then
      if p.state ≠ EState.attack ∧ p.state ≠ EState.heavy_attack then
        let p := { p with chargeTimer := p.chargeTimer + 1 }
        let w := { w with player := p }
        let w := if p.chargeTimer > CHARGE_THRESHOLD ∧ p.chargeTimer % 5 = 0 then
            withParticles w (createParticles rng (p.posX + p.width/2) (p.posY + p.height/2)
              "#fbbf24" 1 2 w.particles w.ri)
          else w
        (w, false)
      else (w, false)
    else if inp.attack = false ∧ p.chargeTimer > 0 then
      if p.chargeTimer > CHARGE_THRESHOLD then
        let p := { p with state := EState.heavy_attack, attackCooldown := 30, animFrame := 0,
                          vx := if p.facingRight then 12 else -12, comboCount := 0,
                          hasDealtDamage := false, chargeTimer := 0 }
        ({ w with player := p, stamina := 0 }, false)
      else
        match resolveLightAttack onGround w with
        | (w', halted) =>
          if halted = true then (w', true)
          else ({ w' with player := { w'.player with chargeTimer := 0 } }, false)
    else (w, false)
  else
    if inp.attack = false then ({ w with player := { p with chargeTimer := 0 } }, false)
    else (w, false)

/-- Movement, jump, gravity, integration and arena clamps
(GameCanvas.tsx:943-994). -/
def physicsStep (rng : Rng) (inp : Input) (onGround : Bool) (w : World) : World :=
  let p := w.player
  let isFinisher := p.state = EState.attack ∧ p.comboCount = 4
  let movementLocked := p.state = EState.dodge ∨ p.state = EState.heavy_attack ∨ isFinisher
  let p :=
    if ¬movementLocked then
      let isAttackLocked := p.state = EState.attack ∧ p.comboCount ≠ 3 ∧ p.animFrame < 2
      if ¬isAttackLocked then
        let p :=
          if inp.right = true then { p with vx := p.vx + MOVE_SPEED, facingRight := true }
          else if inp.left = true then { p with vx := p.vx - MOVE_SPEED, facingRight := false }
          else { p with vx := p.vx * FRICTION }
        { p with vx := max (min p.vx MAX_SPEED) (-MAX_SPEED) }
      else p
    else if p.state = EState.dodge then
      if |p.vx| < 1 then { p with state := EState.idle } else p
    else if p.state = EState.heavy_attack then { p with vx := p.vx * (85/100) }
    else { p with vx := p.vx * (90/100) }
  let jumped := inp.jump = true ∧ onGround = true ∧ ¬movementLocked ∧ p.state ≠ EState.attack
  let p := if jumped then { p with vy := JUMP_FORCE } else p
  let w := { w with player := p }
  let w := if jumped then
      withParticles w (createParticles rng (p.posX + p.width/2) (p.posY + p.height)
        "#78350f" 5 10 w.particles w.ri)
    else w
  let p := w.player
  let p := if p.state = EState.air_attack ∨ (p.state = EState.attack ∧ p.comboCount = 3)
    then { p with vy := p.vy + GRAVITY * (25/100) }
    else { p with vy := p.vy + GRAVITY }
  let p := { p with posX := p.posX + p.vx, posY := p.posY + p.vy }
  let p := if p.posY + p.height > GROUND_Y then
      { p with posY := GROUND_Y - p.height, vy := 0, hasHitInAir := false }
    else p
  let p := if p.posX < (0:ℚ) then { p with posX := 0 } else p
  let p := if p.posX > (1200:ℚ) then { p with posX := 1200 } else p
  { w with player := p }

end Wukong

namespace Wukong

/-- The combo-4 sweep collision scan (GameCanvas.tsx:1056-1087): six
interpolation steps from the previous to the current staff angle, four
checkpoints along the staff, first containment wins.  Returns the first
contact point, if any. -/
def combo4Sweep (trig : TrigOracle) (p b : Entity) : Option (ℚ × ℚ) :=
  let currentT : ℚ := (p.animFrame : ℚ) + (p.animTimer : ℚ) / 1
  let prevT := max 5 (currentT - 1)
  let pivotX := p.posX + p.width / 2
  let pivotY := p.posY + p.height - 35
  (List.range 7).findSome? fun s =>
    let t := lerp prevT currentT ((s : ℚ) / 6)
    let angle := getCombo4AngleFromT t
    [(40:ℚ), 80, 120, 150].findSome? fun r =>
      let dir : ℚ := if p.facingRight then 1 else -1
      let px := pivotX + trig.cos angle * r * dir
      let py := pivotY + trig.sin angle * r
      if px ≥ b.posX ∧ px ≤ b.posX + b.width ∧ py ≥ b.posY ∧ py ≤ b.posY + b.height
      then some (px, py) else none

/-- The 25-particle shatter burst of an immobilize break
(GameCanvas.tsx:1169-1179); three draws per particle (vx, vy, size). -/
def breakParticles (rng : Rng) (x y : ℚ) : ℕ → List Particle → ℕ → List Particle × ℕ
  | 0, ps, ri => (ps, ri)
  | n+1, ps, ri =>
    let (r1, ri) := rand rng ri
    let (r2, ri) := rand rng ri
    let (r3, ri) := rand rng ri
    let ps := ps ++
      [{ x := x, y := y, vx := (r1 - 1/2) * 18, vy := (r2 - 1/2) * 18,
         life := 12/10, color := "#fbbf24", size := r3 * 4 + 3 }]
    breakParticles rng x y n ps ri

/-- The immobilize-accumulation branch of a registered hit
(GameCanvas.tsx:1158-1200): damage accumulates into
`immobilizeDamageTaken`; past the break threshold the freeze shatters
(forced `hit` state, knockback, amplified hitstop), otherwise only a
muted 3-tick hitstop is applied.  `b` is the boss with the health
already updated (line 1149-1154); `isHeavyHit` is recomputed from the
player record, unchanged since its capture at line 1156. -/
def immobilizedHitBranch (rng : Rng) (damage : ℚ) (isMultiHit : Bool)
    (w : World) (b : Entity) : World :=
  let p := w.player
  let isHeavyHit := p.state = EState.heavy_attack ∨ p.comboCount = 4
  let b := { b with immobilizeDamageTaken := b.immobilizeDamageTaken + damage }
  if b.immobilizeDamageTaken > IMMOBILIZE_BREAK_THRESHOLD then
    let b := { b with isImmobilized := false, immobilizeDamageTaken := 0, immobilizeTimer := 0 }
    let w := { w with shake := 25 }
    let w := withParticles w
      (breakParticles rng (b.posX + b.width/2) (b.posY + b.height/2) 25 w.particles w.ri)
    let b := { b with state := EState.hit, animFrame := 0,
                      vx := if p.facingRight then 8 else -8 }
    let stopDuration : ℕ := if isHeavyHit then 15 else if isMultiHit = true then 8 else 10
    let finalStun := max stopDuration 18
    { w with player := { p with hitStop := finalStun },
             boss := { b with hitStop := finalStun } }
  else
    let w := { w with shake := 5 }
    let w := withParticles w
      (createParticles rng (b.posX + b.width/2) (b.posY + b.height/2) "#fbbf24" 8 5
        w.particles w.ri)
    { w with player := { p with hitStop := 3 }, boss := { b with hitStop := 3 } }

/-- The ordinary (not immobilized) hit reaction
(GameCanvas.tsx:1201-1244): knockback force, hitstop/shake selection
with the heavy and finisher impact particles, and the stagger for
heavy-tier hits.  `b` is the boss with the health already updated. -/
def normalHitBranch (dp : DebugParams) (rng : Rng) (isMultiHit : Bool)
    (w : World) (b : Entity) : World :=
  let p := w.player
  let kForce : ℚ := if p.state = EState.heavy_attack then 12
                    else if p.comboCount = 4 then 8 else 0
  let b := { b with vx := if p.facingRight then kForce else -kForce }
  let shouldStagger := p.state = EState.heavy_attack ∨ p.comboCount = 4
  let sd : ℕ × ℚ × World :=
    if p.state = EState.heavy_attack then
      (15, 20, withParticles w (createParticles rng (b.posX + b.width/2) (b.posY + b.height)
        "#fff" 20 15 w.particles w.ri))
    else if p.comboCount = 4 then
      (12, 20, withParticles w (createParticles rng (b.posX + b.width/2) (b.posY + b.height)
        "#fff" 20 15 w.particles w.ri))
    else if isMultiHit = true then
      if p.comboCount = 3 then (dp.c3Stun, 2, w) else (8, 5, w)
    else if p.comboCount = 1 ∨ p.comboCount = 2 then (4, 5, w)
    else (10, 5, w)
  match sd with
  | (stopDuration, shakeInt, w) =>
    let b := if shouldStagger then { b with state := EState.hit, animTimer := 0 } else b
    { w with player := { p with hitStop := stopDuration },
             boss := { b with hitStop := stopDuration },
             shake := shakeInt }

/-- The tail common to every registered hit (GameCanvas.tsx:1246-1262):
health report, impact particles, score, and the dedup-flag / multi-hit
cooldown bookkeeping. -/
def hitCommonTail (rng : Rng) (damage : ℚ) (isMultiHit : Bool) (w : World) : World :=
  let w : World := { w with reportedBossHealth := w.boss.health }
  let pColor : String := if w.player.state = EState.heavy_attack ∨ w.player.comboCount = 4
    then "#ef4444" else "#fbbf24"
  let w := withParticles w
    (createParticles rng (w.boss.posX + w.boss.width/2) (w.boss.posY + w.boss.height/2)
      pColor 12 10 w.particles w.ri)
  let w := { w with score := w.score + ((⌊damage⌋ : ℤ) : ℚ) }
  if isMultiHit = true then
    let p := { w.player with hasDealtDamage := true }
    { w with player := { p with attackCooldown := if p.comboCount = 3 then 11 else 18 } }
  else
    { w with player := { w.player with hasDealtDamage := true } }

/-- Damage registration against the boss (GameCanvas.tsx:1147-1262):
health subtraction (with the infinite-health debug intercept), then the
immobilize or ordinary reaction branch, then the common tail. -/
def registerHit (dp : DebugParams) (rng : Rng) (damage : ℚ) (isMultiHit : Bool)
    (w : World) : World :=
  let b := w.boss
  let b := { b with health := applyDamage dp.infiniteHealth b.maxHealth b.health damage }
  let w : World :=
    if b.isImmobilized = true then immobilizedHitBranch rng damage isMultiHit w b
    else normalHitBranch dp rng isMultiHit w b
  hitCommonTail rng damage isMultiHit w

/-- The active-frame window of the current attack
(GameCanvas.tsx:1005-1014). -/
def activeFramesOf (dp : DebugParams) (p : Entity) : Bool :=
  if p.state = EState.heavy_attack then decide (2 ≤ p.animFrame ∧ p.animFrame ≤ 6)
  else if p.state = EState.attack then
    if p.comboCount = 1 ∨ p.comboCount = 2 then decide (p.animFrame = 1 ∨ p.animFrame = 2)
    else if p.comboCount = 3 then decide (p.animFrame ≤ c3TotalFrames dp)
    else if p.comboCount = 4 then decide (5 ≤ p.animFrame ∧ p.animFrame ≤ 10)
    else false
  else if p.state = EState.air_attack then true
  else false

/-- Range/damage selection for the current attack, including the combo-3
multi-hit segment reset of the dedup flag (GameCanvas.tsx:1017-1051).
Returns (range, damage, world after the possible reset). -/
def attackSelect (dp : DebugParams) (w : World) : ℚ × ℚ × World :=
  let p := w.player
  let isAir := p.state = EState.air_attack ∨ (p.state = EState.attack ∧ p.comboCount = 3)
  if p.state = EState.heavy_attack then (HEAVY_ATTACK_RANGE, HEAVY_ATTACK_DAMAGE, w)
  else if isAir then
    if p.state = EState.attack ∧ p.comboCount = 3 then
      let totalHits : ℕ := 1 + dp.c3ExtraHits
      let damage := dp.c3TotalDamage / (totalHits : ℚ)
      let segmentLen : ℚ := ((c3TotalFrames dp : ℕ) : ℚ) / (totalHits : ℚ)
      let currentHitIndex : ℤ := ⌊(p.animFrame : ℚ) / segmentLen⌋
      if currentHitIndex > w.c3Hits then
        (dp.c3Radius, damage,
         { w with c3Hits := currentHitIndex,
                  player := { p with hasDealtDamage := false } })
      else (dp.c3Radius, damage, w)
    else (ATTACK_RANGE * (15/10), AIR_ATTACK_DAMAGE, w)
  else if p.state = EState.attack then
    if p.comboCount = 2 then (ATTACK_RANGE * (12/10), COMBO_2_DAMAGE, w)
    else if p.comboCount = 4 then (ATTACK_RANGE * 2, COMBO_4_SLAM_DAMAGE, w)
    else (ATTACK_RANGE, ATTACK_DAMAGE, w)
  else (ATTACK_RANGE, ATTACK_DAMAGE, w)

/-- The geometric hit test (GameCanvas.tsx:1053-1129): combo-4 sweep,
radial check for air/spin attacks (squared-distance form of the
source's `Math.sqrt` comparison), or the directed attack box.
`hitPoint` is the sweep result, computed by the caller. -/
def attackHitTest (p b : Entity) (range : ℚ) (hitPoint : Option (ℚ × ℚ)) : Bool :=
  let isAir := p.state = EState.air_attack ∨ (p.state = EState.attack ∧ p.comboCount = 3)
  if p.state = EState.attack ∧ p.comboCount = 4 then hitPoint.isSome
  else if isAir then
    let pCx := p.posX + p.width/2
    let pCy := p.posY + p.height/2
    let bCx := b.posX + b.width/2
    let bCy := b.posY + b.height/2
    let d2 := (pCx - bCx)^2 + (pCy - bCy)^2
    let effectiveRange := range + min b.width b.height / 2
    decide (0 ≤ effectiveRange ∧ d2 < effectiveRange^2)
  else
    let backBuffer : ℚ := 40
    let slamReach : ℚ := 250
    let attackBoxX := if p.state = EState.heavy_attack then
        (if p.facingRight then p.posX - backBuffer else p.posX - range)
      else (if p.facingRight then p.posX + p.width else p.posX - range)
    let attackBoxW := if p.state = EState.heavy_attack
      then range + p.width + backBuffer else range
    let attackBoxY := p.posY
    let attackBoxH := if p.state = EState.heavy_attack then p.height + slamReach else p.height
    decide (attackBoxX < b.posX + b.width ∧ attackBoxX + attackBoxW > b.posX ∧
            attackBoxY < b.posY + b.height ∧ attackBoxY + attackBoxH > b.posY)

/-- Everything that happens on a successful geometric hit
(GameCanvas.tsx:1131-1263): the air-hit continuation flag, the combo-4
contact sparks, the dedup gate, and the call into `registerHit`. -/
def onHitStep (dp : DebugParams) (rng : Rng) (damage : ℚ) (isMultiHit : Bool)
    (hitPoint : Option (ℚ × ℚ)) (w : World) : World :=
  let isAir := w.player.state = EState.air_attack ∨
    (w.player.state = EState.attack ∧ w.player.comboCount = 3)
  let w := if isAir ∨ w.player.state = EState.air_attack then
      { w with player := { w.player with hasHitInAir := true } }
    else w
  let w := match hitPoint with
    | some q => if w.player.hasDealtDamage = false
                then withParticles w (createParticles rng q.1 q.2 "#fff" 2 5
                  w.particles w.ri)
                else w
    | none => w
  if w.player.hasDealtDamage = false then registerHit dp rng damage isMultiHit w else w

/-- Player attack hit detection (GameCanvas.tsx:996-1265): active-frame
windows, range/damage selection (with the combo-3 multi-hit segment
reset), the geometric hit test, and — if it connects — `onHitStep`. -/
def hitDetectStep (dp : DebugParams) (trig : TrigOracle) (rng : Rng) (w : World) : World :=
  let p := w.player
  let b := w.boss
  let isAttacking := p.state = EState.attack ∨ p.state = EState.heavy_attack ∨
    p.state = EState.air_attack
  let isAir := p.state = EState.air_attack ∨ (p.state = EState.attack ∧ p.comboCount = 3)
  let isMultiHit : Bool := decide isAir
  if isAttacking ∧ activeFramesOf dp p = true ∧ b.isDead = false then
    match attackSelect dp w with
    | (range, damage, w) =>
      let hitPoint : Option (ℚ × ℚ) :=
        if p.state = EState.attack ∧ p.comboCount = 4 then combo4Sweep trig p b else none
      if attackHitTest p b range hitPoint = true then
        onHitStep dp rng damage isMultiHit hitPoint w
      else w
  else w

/-- State-exit conditions of the cleanup section
(GameCanvas.tsx:1270-1292).  `isAttacking` and `isFinisher` are
recomputed here from the current state; between their capture points
(lines 944/996) and their uses in this section the only state write is
the dodge self-exit, for which both computations give the same result. -/
def animStateCleanup (onGround : Bool) (p : Entity) : Entity :=
  let isAttacking := p.state = EState.attack ∨ p.state = EState.heavy_attack ∨
    p.state = EState.air_attack
  let isFinisher := p.state = EState.attack ∧ p.comboCount = 4
  if p.state = EState.hit then
    if p.animFrame > 3 then { p with state := EState.idle, animFrame := 0 } else p
  else if p.state = EState.dodge ∧ p.animFrame ≥ 4 then { p with state := EState.idle }
  else if p.state = EState.heavy_attack ∧ p.animFrame ≥ 8 then { p with state := EState.idle }
  else if isAttacking ∧ p.attackCooldown = 0 ∧ ¬isFinisher ∧ p.state ≠ EState.heavy_attack ∧
          p.state ≠ EState.air_attack ∧ p.comboCount ≠ 3 then
    { p with state := EState.idle, comboWindow := COMBO_WINDOW_FRAMES }
  else if p.state ≠ EState.dodge ∧ ¬isAttacking then
    if onGround = false then
      { p with state := if p.vy > 0 then EState.fall else EState.jump }
    else if |p.vx| > 1/10 then { p with state := EState.run }
    else { p with state := EState.idle }
  else p

/-- End of an air attack or combo-3 spin (GameCanvas.tsx:1294-1311): the
spin rolls directly into the combo-4 finisher. -/
def airSpinFinish (dp : DebugParams) (p : Entity) : Entity :=
  if p.state = EState.air_attack ∨ (p.state = EState.attack ∧ p.comboCount = 3) then
    let limit := if p.comboCount = 3 then c3TotalFrames dp else 18
    if p.animFrame > limit then
      if p.comboCount = 3 then
        { p with state := EState.attack, comboCount := 4, vy := -5, vx := 0,
                 attackCooldown := 30, animFrame := 0, animTimer := 0,
                 hasDealtDamage := false }
      else { p with state := EState.idle, comboWindow := COMBO_WINDOW_FRAMES }
    else p
  else p

/-- End of the combo-4 finisher animation (GameCanvas.tsx:1313-1316). -/
def finisherEnd (p : Entity) : Entity :=
  if (p.state = EState.attack ∧ p.comboCount = 4) ∧ p.animFrame ≥ 20 then
    { p with state := EState.idle, comboWindow := COMBO_WINDOW_FRAMES }
  else p

/-- Animation frame advance at the per-state speed
(GameCanvas.tsx:1318-1336). -/
def animAdvance (p : Entity) : Entity :=
  let animSpeed : ℕ :=
    if p.state = EState.run then 5
    else if p.state = EState.attack then
      (if p.comboCount = 3 then (1:ℕ) else if p.comboCount = 4 then 1 else 3)
    else if p.state = EState.heavy_attack then 2
    else if p.state = EState.dodge then 3
    else if p.state = EState.hit then 10
    else if p.state = EState.air_attack then 2
    else 8
  if p.animTimer > animSpeed then { p with animFrame := p.animFrame + 1, animTimer := 0 }
  else p

/-- Post-combat player bookkeeping (GameCanvas.tsx:1267-1336): animation
timer advance, state-exit conditions, the combo-3-to-slam cancel, and the
animation-frame advance, in source order. -/
def animCleanupStep (dp : DebugParams) (onGround : Bool) (w : World) : World :=
  { w with player := animAdvance (finisherEnd (airSpinFinish dp
      (animStateCleanup onGround { w.player with animTimer := w.player.animTimer + 1 }))) }

/-- Stamina regeneration (GameCanvas.tsx:1338-1340). -/
def staminaRegenStep (w : World) : World :=
  if w.player.dodgeCooldown < 30 then { w with stamina := min 100 (w.stamina + 1/2) } else w

/-- The whole player phase of one tick (GameCanvas.tsx:702-1341).  The
`Bool` result is `true` exactly when the tick was aborted by the bare
`return` at line 923. -/
def playerPhase (dp : DebugParams) (trig : TrigOracle) (rng : Rng) (inp : Input)
    (w : World) : World × Bool :=
  let p := w.player
  if p.hitStop > 0 then
    ({ w with player := { p with hitStop := p.hitStop - 1 } }, false)
  else if p.isDead = true then (w, false)
  else
    let onGround : Bool := decide (p.posY + p.height ≥ GROUND_Y)
    let w := cooldownStep w
    let w := trailStep dp w
    let w := spellStep rng inp w
    match playerActionStep rng inp onGround w with
    | (w, halted) =>
      if halted = true then (w, true)
      else
        let w := physicsStep rng inp onGround w
        let w := hitDetectStep dp trig rng w
        let w := animCleanupStep dp onGround w
        let w := staminaRegenStep w
        (w, false)

end Wukong

namespace Wukong

-- Boss phase (GameCanvas.tsx:1343-1577), split by source section.

/-- The kowtow shockwave dust loop (GameCanvas.tsx:1423-1442): 12
iterations, two pushes each; six draws per iteration in source order. -/
def shockwaveParticles (rng : Rng) (headX headY swSpeed : ℚ) :
    ℕ → ℕ → List Particle → ℕ → List Particle × ℕ
  | _, 0, ps, ri => (ps, ri)
  | i, left+1, ps, ri =>
    let c : String := if i % 2 = 0 then "rgba(120, 113, 108, 0.8)" else "rgba(168, 162, 158, 0.5)"
    let (r1, ri) := rand rng ri
    let (r2, ri) := rand rng ri
    let (r3, ri) := rand rng ri
    let ps := ps ++
      [{ x := headX, y := headY - 2, vx := swSpeed * (8/10 + r1 * (4/10)),
         vy := (r2 - 1/2) * 2 - 1, life := 1, color := c, size := 2 + r3 * 4 }]
    let (r4, ri) := rand rng ri
    let (r5, ri) := rand rng ri
    let (r6, ri) := rand rng ri
    let ps := ps ++
      [{ x := headX, y := headY - 2, vx := -(swSpeed * (8/10 + r4 * (4/10))),
         vy := (r5 - 1/2) * 2 - 1, life := 1, color := c, size := 2 + r6 * 4 }]
    shockwaveParticles rng headX headY swSpeed (i+1) left ps ri

/-- The dust, flash and shockwave particles of the kowtow impact frame
(GameCanvas.tsx:1411-1443); `swSpeed` is the source's
`shockwaveRange / particleLifeFrames = 150 / 20`. -/
def kowtowImpactParticles (rng : Rng) (headX : ℚ) (w : World) : World :=
  let w := { w with shake := 15 }
  let w := withParticles w (createParticles rng headX GROUND_Y "#a855f7" 8 12 w.particles w.ri)
  let w := withParticles w (createParticles rng headX GROUND_Y "#ffffff" 8 8 w.particles w.ri)
  let swSpeed : ℚ := 150 / 20
  withParticles w (shockwaveParticles rng headX GROUND_Y swSpeed 0 12 w.particles w.ri)

/-- The kowtow impact-frame area hit check against the player
(GameCanvas.tsx:1445-1471); `range` is the shockwave range 150 and
`facingRight` the boss's facing. -/
def kowtowHitCheck (dp : DebugParams) (rng : Rng) (headX : ℚ) (facingRight : Bool)
    (w : World) : World :=
  let p := w.player
  let dist := |p.posX + p.width/2 - headX|
  let vertDist := |p.posY + p.height - GROUND_Y|
  if dist < 150 ∧ vertDist < 40 ∧ p.state ≠ EState.dodge then
    let h' := applyDamage dp.infinitePlayerHealth p.maxHealth p.health BOSS_KOWTOW_DAMAGE
    let p := { p with health := h' }
    let p := { p with state := EState.hit, hitStop := 15, vy := -10,
                      vx := if facingRight then 8 else -8 }
    let w := { w with player := p, reportedPlayerHealth := p.health }
    let w := withParticles w (createParticles rng p.posX p.posY "#ef4444" 8 10
      w.particles w.ri)
    if p.health ≤ 0 then
      { w with player := { w.player with isDead := true }, gameState := GameState.GAME_OVER }
    else w
  else w

/-- The kowtow recovery back to `idle` (GameCanvas.tsx:1473-1475, with
the debug short-circuit cooldown). -/
def kowtowRecovery (dp : DebugParams) (w : World) : World :=
  let b := w.boss
  if b.animFrame > 12 then
    let cd : ℕ := if dp.bossBehavior = BossBehavior.kowtow then 0 else 60
    { w with boss := { b with state := EState.idle, animFrame := 0, attackCooldown := cd } }
  else w

/-- The boss kowtow (slam) attack branch (GameCanvas.tsx:1402-1475):
knockback friction, the single impact frame with its area hit check
against the player, and the recovery back to `idle`. -/
def bossKowtowStep (dp : DebugParams) (rng : Rng) (w : World) : World :=
  let b := w.boss
  let b := if |b.vx| > 1/10 then { b with vx := b.vx * (8/10) } else { b with vx := 0 }
  let w := { w with boss := b }
  let w : World :=
    if b.animFrame = 4 ∧ b.animTimer = 0 then
      let headX := if b.facingRight then b.posX + b.width + 40 else b.posX - 40
      kowtowHitCheck dp rng headX b.facingRight (kowtowImpactParticles rng headX w)
    else w
  kowtowRecovery dp w

/-- The `jump_smash` landing resolution (GameCanvas.tsx:1495-1522).  The
500 ms `setTimeout` recovery to `idle` is wall-clock I/O outside this
tick (see the module header) and is not modelled. -/
def bossJumpSmashLand (dp : DebugParams) (rng : Rng) (distance : ℚ) (w : World) : World :=
  let b := w.boss
  if b.posY + b.height ≥ GROUND_Y then
    let b := { b with state := EState.attack }
    let w := { w with boss := b, shake := 10 }
    let w := withParticles w
      (createParticles rng (b.posX + b.width/2) GROUND_Y "#581c87" 10 10 w.particles w.ri)
    let p := w.player
    if distance < 150 ∧ p.posY + p.height ≥ GROUND_Y - 20 ∧ p.state ≠ EState.dodge then
      let dmg := BOSS_DAMAGE * (15/10)
      let p := { p with health := applyDamage dp.infinitePlayerHealth p.maxHealth p.health dmg }
      let p := { p with vx := if b.facingRight then 15 else -15, vy := -5,
                        state := EState.hit, hitStop := 12 }
      let w := { w with player := p, boss := { w.boss with hitStop := 8 },
                        reportedPlayerHealth := p.health }
      if p.health ≤ 0 then
        { w with player := { w.player with isDead := true }, gameState := GameState.GAME_OVER }
      else w
    else w
  else w

/-- The two `run`-state standoff transitions (GameCanvas.tsx:1485-1493);
the random draw happens only when the 200..350 band test passes, matching
the source's short-circuit evaluation. -/
def bossRunAdjust (rng : Rng) (distance : ℚ) (w : World) : World :=
  let w : World :=
    if distance < 350 ∧ distance > 200 then
      match rand rng w.ri with
      | (r, ri) =>
        let w := { w with ri := ri }
        if r < 5/100 then
          { w with boss := { w.boss with state := EState.standoff, animTimer := 0 } }
        else w
    else w
  if distance < 220 then { w with boss := { w.boss with state := EState.standoff } } else w

/-- The `standoff` positioning behavior (GameCanvas.tsx:1523-1536). -/
def bossStandoffStep (rng : Rng) (distance : ℚ) (w : World) : World :=
  let b := w.boss
  let diff := distance - 220
  let tolerance : ℚ := 30
  if diff < -tolerance then
    { w with boss := { b with vx := if b.facingRight then -(3/2) else 3/2, state := EState.run } }
  else if diff > tolerance then
    { w with boss := { b with vx := if b.facingRight then 1 else -1, state := EState.run } }
  else
    let w := { w with boss := { b with vx := 0 } }
    match rand rng w.ri with
    | (r, ri) =>
      let w := { w with ri := ri }
      if r < 1/100 then { w with boss := { w.boss with state := EState.idle } } else w

/-- The long-range approach / default standoff (GameCanvas.tsx:1537-1545). -/
def bossApproachStep (distance : ℚ) (w : World) : World :=
  let b := w.boss
  if distance > 350 then
    let vx := b.vx + (if b.facingRight then 2/10 else -(2/10))
    { w with boss := { b with vx := max (min vx 2) (-2), state := EState.run } }
  else { w with boss := { b with state := EState.standoff } }

/-- The `hit`-state knockback decay (GameCanvas.tsx:1547-1553). -/
def bossHitDecayStep (w : World) : World :=
  let b := w.boss
  let b := { b with vx := b.vx * (9/10) }
  let b := if |b.vx| < 1/10 then { b with state := EState.idle } else b
  let b := if b.state = EState.hit ∧ b.animTimer > 20 then { b with state := EState.idle } else b
  { w with boss := b }

/-- The boss physics / cooldown / animation tail shared by all active
branches (GameCanvas.tsx:1555-1574). -/
def bossPhysicsStep (w : World) : World :=
  let b := w.boss
  let b := if b.attackCooldown > 0 then { b with attackCooldown := b.attackCooldown - 1 } else b
  let b := { b with vy := b.vy + GRAVITY }
  let b := { b with posX := b.posX + b.vx, posY := b.posY + b.vy }
  let b := if b.posY + b.height > GROUND_Y then
      { b with posY := GROUND_Y - b.height, vy := 0 }
    else b
  let b := { b with posX := max 0 (min b.posX (1200 - b.width)) }
  let animSpeed : ℕ :=
    if b.state = EState.kowtow_attack then 6 else if b.state = EState.hit then 5 else 10
  let b := { b with animTimer := b.animTimer + 1 }
  let b := if b.animTimer > animSpeed then { b with animFrame := b.animFrame + 1, animTimer := 0 }
    else b
  { w with boss := b }

/-- The `run`-state jump-smash chance roll (GameCanvas.tsx:1479-1493),
falling back to `bossRunAdjust`; conditions read the boss of `w`, which
at the call site is the entity the source's `boss` alias denotes. -/
def bossJumpSmashTrigger (rng : Rng) (distance : ℚ) (w : World) : World :=
  let b := w.boss
  if b.state = EState.run ∧ distance < 250 ∧ distance > 100 then
    match rand rng w.ri with
    | (r, ri) =>
      let w := { w with ri := ri }
      if r < 2/100 ∧ b.attackCooldown = 0 then
        let b' := { w.boss with state := EState.jump_smash, vy := -15 }
        { w with boss := { b' with
            vx := if b'.facingRight then 8 else -8
            attackCooldown := 150 } }
      else bossRunAdjust rng distance w
  else if b.state = EState.run then bossRunAdjust rng distance w
  else w

/-- The normal-behavior AI dispatch (GameCanvas.tsx:1479-1545): the
jump-smash roll, then the landing / standoff / approach branches keyed
on the possibly-updated state. -/
def bossNormalDispatch (dp : DebugParams) (rng : Rng) (distance : ℚ) (w : World) : World :=
  let w := bossJumpSmashTrigger rng distance w
  if w.boss.state = EState.jump_smash then bossJumpSmashLand dp rng distance w
  else if w.boss.state = EState.standoff then bossStandoffStep rng distance w
  else if w.boss.state ≠ EState.attack then bossApproachStep distance w
  else w

/-- The top-level state dispatch of the active boss tick
(GameCanvas.tsx:1402-1553): the kowtow branch, the normal-AI dispatch
(skipped while in `hit`), or the knockback decay.  Conditions read the
boss of `w`, which at the call site is the source's `boss` value. -/
def bossAIDispatch (dp : DebugParams) (rng : Rng) (distance : ℚ) (w : World) : World :=
  if w.boss.state = EState.kowtow_attack then bossKowtowStep dp rng w
  else if w.boss.state ≠ EState.hit then
    if dp.bossBehavior = BossBehavior.normal then bossNormalDispatch dp rng distance w
    else w
  else bossHitDecayStep w

/-- The boss AI and physics for a tick in which the boss is alive, not
immobilized, and out of hitstop after the decrement
(GameCanvas.tsx:1381-1574). -/
def bossActiveStep (dp : DebugParams) (rng : Rng) (w : World) : World :=
  let p := w.player
  let b0 := w.boss
  let b := if b0.state ≠ EState.kowtow_attack then { b0 with facingRight := p.posX > b0.posX }
    else b0
  let distance := |p.posX - b.posX|
  let b : Entity :=
    if dp.bossBehavior = BossBehavior.normal then
      let isBusy := b.state = EState.attack ∨ b.state = EState.jump_smash ∨
        b.state = EState.hit ∨ b.state = EState.kowtow_attack
      if ¬isBusy ∧ b.attackCooldown = 0 then
        { b with state := EState.kowtow_attack, animFrame := 0, animTimer := 0, vx := 0 }
      else b
    else b
  bossPhysicsStep (bossAIDispatch dp rng distance { w with boss := b })

/-- The idle/kowtow debug behavior override applied when the boss is
out of any reaction state (GameCanvas.tsx:1350-1368). -/
def bossReactionOverride (dp : DebugParams) (b : Entity) : Entity :=
  match dp.bossBehavior with
  | BossBehavior.idle =>
    let b := if b.state ≠ EState.idle then { b with state := EState.idle, vx := 0 } else b
    { b with attackCooldown := 60 }
  | BossBehavior.kowtow =>
    if b.state ≠ EState.kowtow_attack then
      { b with state := EState.kowtow_attack, animFrame := 0, animTimer := 0, vx := 0 }
    else b
  | BossBehavior.normal => b

/-- The immobilize countdown with its amber sparkle every ten ticks
(GameCanvas.tsx:1370-1379). -/
def bossImmobilizeCountdown (rng : Rng) (w : World) : World :=
  let b := w.boss
  if b.immobilizeTimer > 0 then
    let b := { b with immobilizeTimer := b.immobilizeTimer - 1 }
    let w := { w with boss := b }
    if b.immobilizeTimer % 10 = 0 then
      match rand rng w.ri with
      | (r1, ri) =>
        match rand rng ri with
        | (r2, ri) =>
          withParticles w (createParticles rng (b.posX + r1 * b.width)
            (b.posY + r2 * b.height) "#fbbf24" 1 1 w.particles ri)
    else w
  else { w with boss := { b with isImmobilized := false } }

/-- The whole boss phase of one tick (GameCanvas.tsx:1344-1577): the
unconditional hitstop decrement, the debug behavior overrides, the
immobilize countdown, and — when out of hitstop — the AI/physics step. -/
def bossPhase (dp : DebugParams) (rng : Rng) (w : World) : World :=
  let b := w.boss
  if b.isDead = true then w
  else
    let b := if b.hitStop > 0 then { b with hitStop := b.hitStop - 1 } else b
    let isReacting := b.state = EState.hit ∨ b.hitStop > 0 ∨ b.isImmobilized = true
    let b : Entity := if ¬isReacting then bossReactionOverride dp b else b
    let w := { w with boss := b }
    if b.isImmobilized = true then bossImmobilizeCountdown rng w
    else
      if b.hitStop = 0 then bossActiveStep dp rng w
      else w

/-- Boss death check (GameCanvas.tsx:1579-1588). -/
def deathCheckStep (dp : DebugParams) (w : World) : World :=
  if w.boss.health ≤ 0 then
    if dp.infiniteHealth = true then
      { w with boss := { w.boss with health := w.boss.maxHealth },
               reportedBossHealth := w.boss.maxHealth }
    else { w with boss := { w.boss with isDead := true }, gameState := GameState.VICTORY }
  else w

/-- `resolveEntityCollision` (GameCanvas.tsx:649-684), applied to
`(player, boss)` as in the single call site at line 1591. -/
def resolveEntityCollision (w : World) : World :=
  let e1 := w.player
  let e2 := w.boss
  if e1.state = EState.dodge ∨ e2.state = EState.dodge then w
  else
    let p1Frozen := e1.hitStop > 0 ∧ e1.isImmobilized = false
    let p2Frozen := e2.hitStop > 0 ∧ e2.isImmobilized = false
    if p1Frozen ∨ p2Frozen then w
    else if e1.posX < e2.posX + e2.width ∧ e1.posX + e1.width > e2.posX ∧
            e1.posY < e2.posY + e2.height ∧ e1.posY + e1.height > e2.posY then
      let center1 := e1.posX + e1.width / 2
      let center2 := e2.posX + e2.width / 2
      let pushForce : ℚ := 2
      if center1 < center2 then
        let e1 := { e1 with posX := e1.posX - pushForce }
        let e2 := if e2.etype = EntityKind.boss then
            (if e2.isImmobilized = false ∧ e2.state ≠ EState.kowtow_attack then
              { e2 with vx := 0 } else e2)
          else { e2 with posX := e2.posX + pushForce }
        let e1 := if e1.vx > 0 then { e1 with vx := 0 } else e1
        { w with player := e1, boss := e2 }
      else
        let e1 := { e1 with posX := e1.posX + pushForce }
        let e2 := if e2.etype = EntityKind.boss then
            (if e2.isImmobilized = false ∧ e2.state ≠ EState.kowtow_attack then
              { e2 with vx := 0 } else e2)
          else { e2 with posX := e2.posX - pushForce }
        let e1 := if e1.vx < 0 then { e1 with vx := 0 } else e1
        { w with player := e1, boss := e2 }
    else w

/-- The guarded collision call (GameCanvas.tsx:1590-1592). -/
def collisionStep (w : World) : World :=
  if w.boss.isDead = false ∧ w.player.isDead = false then resolveEntityCollision w else w

/-- Particle pool advance and the ambient dust spawn
(GameCanvas.tsx:1594-1612). -/
def particlesStep (rng : Rng) (w : World) : World :=
  let w := { w with particles := w.particles.filterMap fun (q : Particle) =>
    let q := { q with x := q.x + q.vx, y := q.y + q.vy, life := q.life - 5/100 }
    if q.life ≤ 0 then none else some q }
  match rand rng w.ri with
  | (r, ri) =>
    let w := { w with ri := ri }
    if r < 1/10 then
      let (r1, ri) := rand rng w.ri
      let (r2, ri) := rand rng ri
      let (r3, ri) := rand rng ri
      let (r4, ri) := rand rng ri
      let (r5, ri) := rand rng ri
      { w with ri := ri, particles := w.particles ++
        [{ x := w.cameraX + r1 * 800, y := r2 * 450, vx := (r3 - 1/2) * (5/10),
           vy := -(r4 * 1), life := 2, color := "#4b5563", size := r5 * 2 }] }
    else w

/-- Camera target and smoothing (GameCanvas.tsx:1614-1630). -/
def cameraStep (w : World) : World :=
  let p := w.player
  let b := w.boss
  let targetCamX0 := p.posX - 150
  let VIEWPORT_W : ℚ := 800
  let targetCamX :=
    if b.isDead = false then
      let dist := |b.posX - p.posX|
      if dist < VIEWPORT_W then
        let midX := (p.posX + b.posX) / 2
        let idealCamX := midX - VIEWPORT_W / 2
        let MARGIN : ℚ := 150
        let minCamX := p.posX - (VIEWPORT_W - MARGIN)
        let maxCamX := p.posX - MARGIN
        max minCamX (min idealCamX maxCamX)
      else targetCamX0
    else targetCamX0
  let c := w.cameraX + (targetCamX - w.cameraX) * (1/10)
  { w with cameraX := max 0 (min c 600) }

/-- Screen-shake decay (GameCanvas.tsx:690-691). -/
def shakeDecay (w : World) : World :=
  let s := if w.shake > 0 then w.shake * (9/10) else w.shake
  let s := if s < 1/2 then (0:ℚ) else s
  { w with shake := s }

/-- One full simulation tick: the `update` callback
(GameCanvas.tsx:687-1632).  A `true` result from the player phase is the
bare `return` at line 923, which ends the tick with all later phases
(boss AI/physics, death check, collision, particles, camera) skipped. -/
def update (dp : DebugParams) (trig : TrigOracle) (rng : Rng) (inp : Input) (w : World) : World :=
  if w.gameState ≠ GameState.PLAYING then w
  else
    let w := shakeDecay w
    match playerPhase dp trig rng inp w with
    | (w, halted) =>
      if halted = true then w
      else
        let w := bossPhase dp rng w
        let w := deathCheckStep dp w
        let w := collisionStep w
        let w := particlesStep rng w
        cameraStep w

/-- `n` consecutive ticks, tick `k` consuming input `ins k` and random
stream `rngs k`. -/
def runTicks (dp : DebugParams) (trig : TrigOracle) (ins : ℕ → Input) (rngs : ℕ → Rng) :
    ℕ → World → World
  | 0, w => w
  | n+1, w => update dp trig (rngs n) (ins n) (runTicks dp trig ins rngs n w)

/-- The player entity as (re)constructed by `initGame`
(GameCanvas.tsx:566-585, spread over the component initialiser at
lines 143-168). -/
def initialPlayer : Entity where
  posX := 100
  posY := 200
  width := 30
  height := 50
  vx := 0
  vy := 0
  health := 100
  maxHealth := 100
  isDead := false
  facingRight := true
  etype := EntityKind.player
  state := EState.idle
  attackCooldown := 0
  dodgeCooldown := 0
  chargeTimer := 0
  comboCount := 0
  comboWindow := 0
  animFrame := 0
  animTimer := 0
  hasHitInAir := false
  hasDealtDamage := false
  hitStop := 0
  spellCooldown := 0
  isImmobilized := false
  immobilizeTimer := 0
  immobilizeDamageTaken := 0

/-- The boss entity as constructed by `initGame` (GameCanvas.tsx:587-612). -/
def initialBoss : Entity where
  posX := 600
  posY := 200
  width := 80
  height := 100
  vx := 0
  vy := 0
  health := 1200
  maxHealth := 1200
  isDead := false
  facingRight := false
  etype := EntityKind.boss
  state := EState.idle
  attackCooldown := 60
  dodgeCooldown := 0
  chargeTimer := 0
  comboCount := 0
  comboWindow := 0
  animFrame := 0
  animTimer := 0
  hasHitInAir := false
  hasDealtDamage := false
  hitStop := 0
  spellCooldown := 0
  isImmobilized := false
  immobilizeTimer := 0
  immobilizeDamageTaken := 0

/-- The world right after `initGame` ran and the game entered `PLAYING`
(GameCanvas.tsx:614-625). -/
def initialWorld : World where
  player := initialPlayer
  boss := initialBoss
  particles := []
  combo4Trails := []
  prevCombo4Time := none
  c3Hits := 0
  cameraX := 0
  shake := 0
  stamina := 100
  score := 0
  reportedPlayerHealth := 100
  reportedBossHealth := 1200
  gameState := GameState.PLAYING
  ri := 0

end Wukong

namespace Wukong

-- Frame lemmas for the particle-merge helper: `withParticles` touches
-- only the particle pool and the draw cursor.

theorem withParticles_player (w : World) (pr : List Particle × ℕ) :
    (withParticles w pr).player = w.player := by cases pr; rfl

theorem withParticles_boss (w : World) (pr : List Particle × ℕ) :
    (withParticles w pr).boss = w.boss := by cases pr; rfl

theorem withParticles_stamina (w : World) (pr : List Particle × ℕ) :
    (withParticles w pr).stamina = w.stamina := by cases pr; rfl

theorem withParticles_score (w : World) (pr : List Particle × ℕ) :
    (withParticles w pr).score = w.score := by cases pr; rfl

theorem withParticles_cameraX (w : World) (pr : List Particle × ℕ) :
    (withParticles w pr).cameraX = w.cameraX := by cases pr; rfl

theorem withParticles_gameState (w : World) (pr : List Particle × ℕ) :
    (withParticles w pr).gameState = w.gameState := by cases pr; rfl

theorem withParticles_reportedPlayerHealth (w : World) (pr : List Particle × ℕ) :
    (withParticles w pr).reportedPlayerHealth = w.reportedPlayerHealth := by cases pr; rfl

theorem withParticles_reportedBossHealth (w : World) (pr : List Particle × ℕ) :
    (withParticles w pr).reportedBossHealth = w.reportedBossHealth := by cases pr; rfl

-- Shared concrete scenario data for the closed theorems below.

/-- A trigonometry oracle that is never exercised by these scenarios. -/
def trig0 : TrigOracle := { cos := fun _ => 0, sin := fun _ => 0 }

/-- A random stream that always draws 1/2 (no probabilistic branch fires). -/
def rngHalf : Rng := fun _ => 1/2

/-- A random stream that always draws 0 (every probabilistic branch fires). -/
def rngZero : Rng := fun _ => 0

/-- No key held this tick. -/
def inp0 : Input where
  attack := false
  dodge := false
  spell := false
  right := false
  left := false
  jump := false

/-- C8: if the narrative-generation collaborator is unavailable (no API
key) or its call fails, `generateLevelLore` returns a fixed,
fully-populated default `LevelData` record (chapterTitle, introText,
bossName, bossDescription all present, i.e. nonempty) — one of the two
hard-coded fallback records — instead of throwing or blocking the run. -/
theorem C8_lore_fallback (o : LoreOutcome)
    (h : o = LoreOutcome.noApiKey ∨ o = LoreOutcome.apiFailure) :
    (generateLevelLore o).chapterTitle ≠ "" ∧ (generateLevelLore o).introText ≠ "" ∧
    (generateLevelLore o).bossName ≠ "" ∧ (generateLevelLore o).bossDescription ≠ "" ∧
    (generateLevelLore o = generateLevelLore LoreOutcome.noApiKey ∨
     generateLevelLore o = generateLevelLore LoreOutcome.apiFailure) := by
  rcases h with h | h <;> subst h
  · exact ⟨by decide, by decide, by decide, by decide, Or.inl rfl⟩
  · exact ⟨by decide, by decide, by decide, by decide, Or.inr rfl⟩

/-- Witness for C8 at both concrete outcomes. -/
theorem C8_lore_fallback_witness :
    (generateLevelLore LoreOutcome.noApiKey).bossName ≠ "" ∧
    (generateLevelLore LoreOutcome.apiFailure).chapterTitle ≠ "" :=
  ⟨(C8_lore_fallback LoreOutcome.noApiKey (Or.inl rfl)).2.2.1,
   (C8_lore_fallback LoreOutcome.apiFailure (Or.inr rfl)).1⟩

end Wukong

namespace Wukong

theorem finishAttackStart_boss (w : World) : (finishAttackStart w).boss = w.boss := by
  simp only [finishAttackStart]

theorem finishAttackStart_health (w : World) :
    (finishAttackStart w).player.health = w.player.health := by
  simp only [finishAttackStart]
  split_ifs <;> rfl

theorem finishAttackStart_maxHealth (w : World) :
    (finishAttackStart w).player.maxHealth = w.player.maxHealth := by
  simp only [finishAttackStart]
  split_ifs <;> rfl

theorem finishAttackStart_comboCount (w : World) :
    (finishAttackStart w).player.comboCount = w.player.comboCount := by
  simp only [finishAttackStart]
  split_ifs <;> rfl

theorem finishAttackStart_stamina (w : World) : (finishAttackStart w).stamina = w.stamina := by
  simp only [finishAttackStart]

theorem groundedComboStep_boss (w : World) (p : Entity) :
    (groundedComboStep w p).1.boss = w.boss := by
  simp only [groundedComboStep, finishAttackStart_boss, apply_ite World.boss, ite_self]

theorem groundedComboStep_health (w : World) (p : Entity) :
    (groundedComboStep w p).1.player.health = p.health := by
  simp only [groundedComboStep, finishAttackStart_health, apply_ite World.player,
    apply_ite Entity.health, ite_self]

theorem groundedComboStep_maxHealth (w : World) (p : Entity) :
    (groundedComboStep w p).1.player.maxHealth = p.maxHealth := by
  simp only [groundedComboStep, finishAttackStart_maxHealth, apply_ite World.player,
    apply_ite Entity.maxHealth, ite_self]

theorem groundedComboStep_comboCount (w : World) (p : Entity) :
    (groundedComboStep w p).1.player.comboCount =
      (if p.comboCount > 0 then p.comboCount % 4 + 1 else 1) := by
  simp only [groundedComboStep, finishAttackStart_comboCount, apply_ite World.player,
    apply_ite Entity.comboCount, ite_self]

theorem airLightStep_boss (w : World) (p : Entity) :
    (airLightStep w p).1.boss = w.boss := by
  simp only [airLightStep]
  split_ifs <;> simp [finishAttackStart_boss]

theorem airLightStep_health (w : World) (p : Entity) :
    (airLightStep w p).1.player.health = p.health := by
  simp only [airLightStep]
  split_ifs <;> simp [finishAttackStart_health]

theorem airLightStep_maxHealth (w : World) (p : Entity) :
    (airLightStep w p).1.player.maxHealth = p.maxHealth := by
  simp only [airLightStep]
  split_ifs <;> simp [finishAttackStart_maxHealth]

theorem airLightStep_comboCount (w : World) (p : Entity) :
    (airLightStep w p).1.player.comboCount =
      (if p.comboCount = 3 ∨ p.state = EState.air_attack then 4
       else if GROUND_Y - (p.posY + p.height) > 50 then 0 else p.comboCount) := by
  simp only [airLightStep]
  split_ifs <;> simp [finishAttackStart_comboCount]

end Wukong

namespace Wukong

theorem resolveLightAttack_boss (g : Bool) (w : World) :
    (resolveLightAttack g w).1.boss = w.boss := by
  simp only [resolveLightAttack]
  split_ifs <;> simp [groundedComboStep_boss, airLightStep_boss]

theorem resolveLightAttack_health (g : Bool) (w : World) :
    (resolveLightAttack g w).1.player.health = w.player.health := by
  simp only [resolveLightAttack]
  split_ifs <;> simp [groundedComboStep_health, airLightStep_health]

theorem resolveLightAttack_maxHealth (g : Bool) (w : World) :
    (resolveLightAttack g w).1.player.maxHealth = w.player.maxHealth := by
  simp only [resolveLightAttack]
  split_ifs <;> simp [groundedComboStep_maxHealth, airLightStep_maxHealth]

theorem resolveLightAttack_comboCount (g : Bool) (w : World)
    (h : w.player.comboCount ≤ 4) :
    (resolveLightAttack g w).1.player.comboCount ≤ 4 := by
  simp only [resolveLightAttack]
  split_ifs <;> simp only [groundedComboStep_comboCount, airLightStep_comboCount] <;>
    (try split_ifs) <;> simp_all <;> omega

end Wukong

namespace Wukong

theorem cooldownStep_boss (w : World) : (cooldownStep w).boss = w.boss := by
  simp only [cooldownStep]

theorem cooldownStep_health (w : World) :
    (cooldownStep w).player.health = w.player.health := by
  simp only [cooldownStep]
  split_ifs <;> rfl

theorem cooldownStep_maxHealth (w : World) :
    (cooldownStep w).player.maxHealth = w.player.maxHealth := by
  simp only [cooldownStep]
  split_ifs <;> rfl

theorem cooldownStep_state (w : World) :
    (cooldownStep w).player.state = w.player.state := by
  simp only [cooldownStep]
  split_ifs <;> rfl

theorem cooldownStep_comboCount (w : World) (h : w.player.comboCount ≤ 4) :
    (cooldownStep w).player.comboCount ≤ 4 := by
  simp only [cooldownStep, apply_ite World.player, apply_ite Entity.comboCount, ite_self]
  split_ifs <;> omega

theorem trailStep_frame (dp : DebugParams) (w : World) :
    (trailStep dp w).player = w.player ∧ (trailStep dp w).boss = w.boss := by
  simp only [trailStep]
  rcases h : w.prevCombo4Time with _ | prevT <;> simp only [h] <;> split_ifs <;>
    exact ⟨rfl, rfl⟩

theorem spellStep_frame (rng : Rng) (inp : Input) (w : World) :
    (spellStep rng inp w).player.health = w.player.health ∧
    (spellStep rng inp w).player.maxHealth = w.player.maxHealth ∧
    (spellStep rng inp w).player.state = w.player.state ∧
    (spellStep rng inp w).player.comboCount = w.player.comboCount ∧
    (spellStep rng inp w).boss.health = w.boss.health ∧
    (spellStep rng inp w).boss.maxHealth = w.boss.maxHealth := by
  simp only [spellStep]
  split_ifs <;> simp [withParticles_player, withParticles_boss]

theorem physicsStep_boss (rng : Rng) (inp : Input) (g : Bool) (w : World) :
    (physicsStep rng inp g w).boss = w.boss := by
  simp only [physicsStep, withParticles_boss, apply_ite World.boss, ite_self]

theorem physicsStep_health (rng : Rng) (inp : Input) (g : Bool) (w : World) :
    (physicsStep rng inp g w).player.health = w.player.health := by
  simp only [physicsStep, withParticles_player, apply_ite World.player,
    apply_ite Entity.health, ite_self]

theorem physicsStep_maxHealth (rng : Rng) (inp : Input) (g : Bool) (w : World) :
    (physicsStep rng inp g w).player.maxHealth = w.player.maxHealth := by
  simp only [physicsStep, withParticles_player, apply_ite World.player,
    apply_ite Entity.maxHealth, ite_self]

theorem physicsStep_comboCount (rng : Rng) (inp : Input) (g : Bool) (w : World) :
    (physicsStep rng inp g w).player.comboCount = w.player.comboCount := by
  simp only [physicsStep, withParticles_player, apply_ite World.player,
    apply_ite Entity.comboCount, ite_self]

theorem staminaRegenStep_frame (w : World) :
    (staminaRegenStep w).player = w.player ∧ (staminaRegenStep w).boss = w.boss := by
  simp only [staminaRegenStep]
  split_ifs <;> simp

end Wukong

namespace Wukong

theorem playerActionStep_boss (rng : Rng) (inp : Input) (g : Bool) (w : World) :
    (playerActionStep rng inp g w).1.boss = w.boss := by
  rcases hR : resolveLightAttack g w with ⟨w1, halted⟩
  have hb := resolveLightAttack_boss g w
  rw [hR] at hb
  simp only [playerActionStep, hR]
  split_ifs <;> simp_all [withParticles_boss]

theorem playerActionStep_health (rng : Rng) (inp : Input) (g : Bool) (w : World) :
    (playerActionStep rng inp g w).1.player.health = w.player.health := by
  rcases hR : resolveLightAttack g w with ⟨w1, halted⟩
  have hb := resolveLightAttack_health g w
  rw [hR] at hb
  simp only [playerActionStep, hR]
  split_ifs <;> simp_all [withParticles_player]

theorem playerActionStep_maxHealth (rng : Rng) (inp : Input) (g : Bool) (w : World) :
    (playerActionStep rng inp g w).1.player.maxHealth = w.player.maxHealth := by
  rcases hR : resolveLightAttack g w with ⟨w1, halted⟩
  have hb := resolveLightAttack_maxHealth g w
  rw [hR] at hb
  simp only [playerActionStep, hR]
  split_ifs <;> simp_all [withParticles_player]

theorem playerActionStep_comboCount (rng : Rng) (inp : Input) (g : Bool) (w : World)
    (h : w.player.comboCount ≤ 4) :
    (playerActionStep rng inp g w).1.player.comboCount ≤ 4 := by
  rcases hR : resolveLightAttack g w with ⟨w1, halted⟩
  have hb := resolveLightAttack_comboCount g w h
  rw [hR] at hb
  simp only [playerActionStep, hR]
  split_ifs <;> simp_all [withParticles_player]

end Wukong

namespace Wukong

theorem immobilizedHitBranch_frame (rng : Rng) (dmg : ℚ) (mh : Bool) (w : World) (b : Entity) :
    (immobilizedHitBranch rng dmg mh w b).boss.health = b.health ∧
    (immobilizedHitBranch rng dmg mh w b).boss.maxHealth = b.maxHealth ∧
    (immobilizedHitBranch rng dmg mh w b).player.health = w.player.health ∧
    (immobilizedHitBranch rng dmg mh w b).player.maxHealth = w.player.maxHealth ∧
    (immobilizedHitBranch rng dmg mh w b).player.comboCount = w.player.comboCount := by
  simp only [immobilizedHitBranch]
  split_ifs <;> simp [withParticles_player, withParticles_boss]

theorem normalHitBranch_frame (dp : DebugParams) (rng : Rng) (mh : Bool)
    (w : World) (b : Entity) :
    (normalHitBranch dp rng mh w b).boss.health = b.health ∧
    (normalHitBranch dp rng mh w b).boss.maxHealth = b.maxHealth ∧
    (normalHitBranch dp rng mh w b).player.health = w.player.health ∧
    (normalHitBranch dp rng mh w b).player.maxHealth = w.player.maxHealth ∧
    (normalHitBranch dp rng mh w b).player.comboCount = w.player.comboCount := by
  simp only [normalHitBranch]
  split_ifs <;> simp [withParticles_player, withParticles_boss]

theorem hitCommonTail_frame (rng : Rng) (dmg : ℚ) (mh : Bool) (w : World) :
    (hitCommonTail rng dmg mh w).boss = w.boss ∧
    (hitCommonTail rng dmg mh w).player.health = w.player.health ∧
    (hitCommonTail rng dmg mh w).player.maxHealth = w.player.maxHealth ∧
    (hitCommonTail rng dmg mh w).player.comboCount = w.player.comboCount := by
  cases mh <;> (simp only [hitCommonTail]; split_ifs <;>
    simp [withParticles_player, withParticles_boss])

theorem registerHit_frame (dp : DebugParams) (rng : Rng) (dmg : ℚ) (mh : Bool)
    (w : World) :
    (registerHit dp rng dmg mh w).boss.health =
      applyDamage dp.infiniteHealth w.boss.maxHealth w.boss.health dmg ∧
    (registerHit dp rng dmg mh w).boss.maxHealth = w.boss.maxHealth ∧
    (registerHit dp rng dmg mh w).player.health = w.player.health ∧
    (registerHit dp rng dmg mh w).player.maxHealth = w.player.maxHealth ∧
    (registerHit dp rng dmg mh w).player.comboCount = w.player.comboCount := by
  simp only [registerHit]
  split_ifs <;>
    simp [hitCommonTail_frame, immobilizedHitBranch_frame, normalHitBranch_frame]

end Wukong
namespace Wukong

theorem attackSelect_frame (dp : DebugParams) (w : World) :
    (attackSelect dp w).2.2.player.health = w.player.health ∧
    (attackSelect dp w).2.2.player.maxHealth = w.player.maxHealth ∧
    (attackSelect dp w).2.2.player.comboCount = w.player.comboCount ∧
    (attackSelect dp w).2.2.boss = w.boss := by
  simp only [attackSelect]
  split_ifs <;> simp

theorem attackSelect_damage (dp : DebugParams) (w : World) (h : 0 ≤ dp.c3TotalDamage) :
    0 ≤ (attackSelect dp w).2.1 := by
  simp only [attackSelect]
  split_ifs <;>
    first
      | positivity
      | norm_num [ATTACK_DAMAGE, COMBO_2_DAMAGE, COMBO_4_SLAM_DAMAGE,
          AIR_ATTACK_DAMAGE, HEAVY_ATTACK_DAMAGE]

theorem onHitStep_frame (dp : DebugParams) (rng : Rng) (dmg : ℚ) (mh : Bool)
    (hp : Option (ℚ × ℚ)) (w : World) :
    (onHitStep dp rng dmg mh hp w).player.health = w.player.health ∧
    (onHitStep dp rng dmg mh hp w).player.maxHealth = w.player.maxHealth ∧
    (onHitStep dp rng dmg mh hp w).player.comboCount = w.player.comboCount ∧
    (onHitStep dp rng dmg mh hp w).boss.maxHealth = w.boss.maxHealth := by
  cases hp <;>
    (simp only [onHitStep]; split_ifs <;>
      simp [registerHit_frame, withParticles_player, withParticles_boss])

theorem onHitStep_bossHealth (dp : DebugParams) (rng : Rng) (dmg : ℚ) (mh : Bool)
    (hp : Option (ℚ × ℚ)) (w : World)
    (h1 : dp.infiniteHealth = false) (h2 : 0 ≤ dmg) :
    (onHitStep dp rng dmg mh hp w).boss.health ≤ w.boss.health := by
  cases hp <;>
    (simp only [onHitStep]; split_ifs <;>
      simp [registerHit_frame, applyDamage, h1, withParticles_boss] <;> linarith)

theorem hitDetectStep_frame (dp : DebugParams) (trig : TrigOracle) (rng : Rng) (w : World) :
    (hitDetectStep dp trig rng w).player.health = w.player.health ∧
    (hitDetectStep dp trig rng w).player.maxHealth = w.player.maxHealth ∧
    (hitDetectStep dp trig rng w).player.comboCount = w.player.comboCount ∧
    (hitDetectStep dp trig rng w).boss.maxHealth = w.boss.maxHealth := by
  rcases hA : attackSelect dp w with ⟨range, damage, w2⟩
  have hF := attackSelect_frame dp w
  rw [hA] at hF
  simp only at hF
  simp only [hitDetectStep, hA]
  split_ifs <;> simp_all [onHitStep_frame]

theorem hitDetectStep_bossHealth (dp : DebugParams) (trig : TrigOracle) (rng : Rng)
    (w : World) (h1 : dp.infiniteHealth = false) (h2 : 0 ≤ dp.c3TotalDamage) :
    (hitDetectStep dp trig rng w).boss.health ≤ w.boss.health := by
  rcases hA : attackSelect dp w with ⟨range, damage, w2⟩
  have hF := attackSelect_frame dp w
  have hD := attackSelect_damage dp w h2
  rw [hA] at hF hD
  simp only at hF hD
  simp only [hitDetectStep, hA]
  split_ifs <;> rw [← hF.2.2.2] <;>
    first
      | exact le_refl _
      | exact onHitStep_bossHealth dp rng damage _ _ w2 h1 hD

end Wukong
namespace Wukong

theorem animStateCleanup_frame (g : Bool) (p : Entity) :
    (animStateCleanup g p).health = p.health ∧
    (animStateCleanup g p).maxHealth = p.maxHealth ∧
    (animStateCleanup g p).comboCount = p.comboCount := by
  simp only [animStateCleanup]
  split_ifs <;> simp

theorem airSpinFinish_frame (dp : DebugParams) (p : Entity) :
    (airSpinFinish dp p).health = p.health ∧
    (airSpinFinish dp p).maxHealth = p.maxHealth ∧
    ((airSpinFinish dp p).comboCount = p.comboCount ∨ (airSpinFinish dp p).comboCount = 4) := by
  simp only [airSpinFinish]
  split_ifs <;> simp

theorem finisherEnd_frame (p : Entity) :
    (finisherEnd p).health = p.health ∧
    (finisherEnd p).maxHealth = p.maxHealth ∧
    (finisherEnd p).comboCount = p.comboCount := by
  simp only [finisherEnd]
  split_ifs <;> simp

theorem animAdvance_frame (p : Entity) :
    (animAdvance p).health = p.health ∧
    (animAdvance p).maxHealth = p.maxHealth ∧
    (animAdvance p).comboCount = p.comboCount := by
  simp only [animAdvance]
  split_ifs <;> simp

theorem animCleanupStep_boss (dp : DebugParams) (g : Bool) (w : World) :
    (animCleanupStep dp g w).boss = w.boss := by
  simp only [animCleanupStep]

theorem animCleanupStep_health (dp : DebugParams) (g : Bool) (w : World) :
    (animCleanupStep dp g w).player.health = w.player.health := by
  simp only [animCleanupStep]
  simp [animAdvance_frame, finisherEnd_frame, (airSpinFinish_frame dp _).1,
    animStateCleanup_frame]

theorem animCleanupStep_maxHealth (dp : DebugParams) (g : Bool) (w : World) :
    (animCleanupStep dp g w).player.maxHealth = w.player.maxHealth := by
  simp only [animCleanupStep]
  simp [animAdvance_frame, finisherEnd_frame, (airSpinFinish_frame dp _).2.1,
    animStateCleanup_frame]

theorem animCleanupStep_comboCount (dp : DebugParams) (g : Bool) (w : World)
    (h : w.player.comboCount ≤ 4) :
    (animCleanupStep dp g w).player.comboCount ≤ 4 := by
  simp only [animCleanupStep]
  simp only [World.player, animAdvance_frame, finisherEnd_frame]
  rcases (airSpinFinish_frame dp
      (animStateCleanup g { w.player with animTimer := w.player.animTimer + 1 })).2.2 with
    hc | hc <;> rw [hc]
  rw [(animStateCleanup_frame g _).2.2]
  exact h

theorem playerPhase_health (dp : DebugParams) (trig : TrigOracle) (rng : Rng) (inp : Input)
    (w : World) :
    (playerPhase dp trig rng inp w).1.player.health = w.player.health := by
  by_cases h1 : w.player.hitStop > 0
  · simp [playerPhase, if_pos h1]
  · by_cases h2 : w.player.isDead = true
    · simp [playerPhase, if_neg h1, if_pos h2]
    · simp only [playerPhase, if_neg h1, if_neg h2]
      set g : Bool := decide (w.player.posY + w.player.height ≥ GROUND_Y)
      set w1 := cooldownStep w with hw1
      set w2 := trailStep dp w1 with hw2
      set w3 := spellStep rng inp w2 with hw3
      have e1 : w1.player.health = w.player.health := cooldownStep_health w
      have e2 : w2.player.health = w1.player.health := by rw [hw2, (trailStep_frame dp w1).1]
      have e3 : w3.player.health = w2.player.health := (spellStep_frame rng inp w2).1
      rcases hR : playerActionStep rng inp g w3 with ⟨w4, halted⟩
      have e4 : w4.player.health = w3.player.health := by
        have hp := playerActionStep_health rng inp g w3
        rw [hR] at hp; exact hp
      have e5 := physicsStep_health rng inp g w4
      have e6 := (hitDetectStep_frame dp trig rng (physicsStep rng inp g w4)).1
      have e7 := animCleanupStep_health dp g (hitDetectStep dp trig rng (physicsStep rng inp g w4))
      have e8 := (staminaRegenStep_frame (animCleanupStep dp g
        (hitDetectStep dp trig rng (physicsStep rng inp g w4)))).1
      cases halted <;> simp_all

end Wukong
namespace Wukong

theorem playerPhase_maxHealth (dp : DebugParams) (trig : TrigOracle) (rng : Rng) (inp : Input)
    (w : World) :
    (playerPhase dp trig rng inp w).1.player.maxHealth = w.player.maxHealth := by
  by_cases h1 : w.player.hitStop > 0
  · simp [playerPhase, if_pos h1]
  · by_cases h2 : w.player.isDead = true
    · simp [playerPhase, if_neg h1, if_pos h2]
    · simp only [playerPhase, if_neg h1, if_neg h2]
      set g : Bool := decide (w.player.posY + w.player.height ≥ GROUND_Y)
      set w1 := cooldownStep w with hw1
      set w2 := trailStep dp w1 with hw2
      set w3 := spellStep rng inp w2 with hw3
      have e1 : w1.player.maxHealth = w.player.maxHealth := cooldownStep_maxHealth w
      have e2 : w2.player.maxHealth = w1.player.maxHealth := by
        rw [hw2, (trailStep_frame dp w1).1]
      have e3 : w3.player.maxHealth = w2.player.maxHealth := (spellStep_frame rng inp w2).2.1
      rcases hR : playerActionStep rng inp g w3 with ⟨w4, halted⟩
      have e4 : w4.player.maxHealth = w3.player.maxHealth := by
        have hp := playerActionStep_maxHealth rng inp g w3
        rw [hR] at hp; exact hp
      have e5 := physicsStep_maxHealth rng inp g w4
      have e6 := (hitDetectStep_frame dp trig rng (physicsStep rng inp g w4)).2.1
      have e7 := animCleanupStep_maxHealth dp g
        (hitDetectStep dp trig rng (physicsStep rng inp g w4))
      have e8 := (staminaRegenStep_frame (animCleanupStep dp g
        (hitDetectStep dp trig rng (physicsStep rng inp g w4)))).1
      cases halted <;> simp_all

theorem playerPhase_comboCount (dp : DebugParams) (trig : TrigOracle) (rng : Rng) (inp : Input)
    (w : World) (h : w.player.comboCount ≤ 4) :
    (playerPhase dp trig rng inp w).1.player.comboCount ≤ 4 := by
  by_cases h1 : w.player.hitStop > 0
  · simp only [playerPhase, if_pos h1]
    simpa using h
  · by_cases h2 : w.player.isDead = true
    · simp only [playerPhase, if_neg h1, if_pos h2]
      simpa using h
    · simp only [playerPhase, if_neg h1, if_neg h2]
      set g : Bool := decide (w.player.posY + w.player.height ≥ GROUND_Y)
      set w1 := cooldownStep w with hw1
      set w2 := trailStep dp w1 with hw2
      set w3 := spellStep rng inp w2 with hw3
      have e1 : w1.player.comboCount ≤ 4 := cooldownStep_comboCount w h
      have e2 : w2.player.comboCount = w1.player.comboCount := by
        rw [hw2, (trailStep_frame dp w1).1]
      have e3 : w3.player.comboCount = w2.player.comboCount :=
        (spellStep_frame rng inp w2).2.2.2.1
      have e3b : w3.player.comboCount ≤ 4 := by rw [e3, e2]; exact e1
      rcases hR : playerActionStep rng inp g w3 with ⟨w4, halted⟩
      have e4 : w4.player.comboCount ≤ 4 := by
        have hp := playerActionStep_comboCount rng inp g w3 e3b
        rw [hR] at hp; exact hp
      have e5 := physicsStep_comboCount rng inp g w4
      have e6 := (hitDetectStep_frame dp trig rng (physicsStep rng inp g w4)).2.2.1
      have e7 : (animCleanupStep dp g
          (hitDetectStep dp trig rng (physicsStep rng inp g w4))).player.comboCount ≤ 4 := by
        apply animCleanupStep_comboCount
        rw [e6, e5]; exact e4
      have e8 := (staminaRegenStep_frame (animCleanupStep dp g
        (hitDetectStep dp trig rng (physicsStep rng inp g w4)))).1
      cases halted <;> simp_all

theorem playerPhase_bossMaxHealth (dp : DebugParams) (trig : TrigOracle) (rng : Rng)
    (inp : Input) (w : World) :
    (playerPhase dp trig rng inp w).1.boss.maxHealth = w.boss.maxHealth := by
  by_cases h1 : w.player.hitStop > 0
  · simp [playerPhase, if_pos h1]
  · by_cases h2 : w.player.isDead = true
    · simp [playerPhase, if_neg h1, if_pos h2]
    · simp only [playerPhase, if_neg h1, if_neg h2]
      set g : Bool := decide (w.player.posY + w.player.height ≥ GROUND_Y)
      set w1 := cooldownStep w with hw1
      set w2 := trailStep dp w1 with hw2
      set w3 := spellStep rng inp w2 with hw3
      have e1 : w1.boss = w.boss := cooldownStep_boss w
      have e2 : w2.boss = w1.boss := by rw [hw2, (trailStep_frame dp w1).2]
      have e3 : w3.boss.maxHealth = w2.boss.maxHealth := (spellStep_frame rng inp w2).2.2.2.2.2
      rcases hR : playerActionStep rng inp g w3 with ⟨w4, halted⟩
      have e4 : w4.boss = w3.boss := by
        have hp := playerActionStep_boss rng inp g w3
        rw [hR] at hp; exact hp
      have e5 := physicsStep_boss rng inp g w4
      have e6 := (hitDetectStep_frame dp trig rng (physicsStep rng inp g w4)).2.2.2
      have e7 := animCleanupStep_boss dp g (hitDetectStep dp trig rng (physicsStep rng inp g w4))
      have e8 := (staminaRegenStep_frame (animCleanupStep dp g
        (hitDetectStep dp trig rng (physicsStep rng inp g w4)))).2
      cases halted <;> simp_all

theorem playerPhase_bossHealth (dp : DebugParams) (trig : TrigOracle) (rng : Rng)
    (inp : Input) (w : World) (hi : dp.infiniteHealth = false) (hd : 0 ≤ dp.c3TotalDamage) :
    (playerPhase dp trig rng inp w).1.boss.health ≤ w.boss.health := by
  by_cases h1 : w.player.hitStop > 0
  · simp [playerPhase, if_pos h1]
  · by_cases h2 : w.player.isDead = true
    · simp [playerPhase, if_neg h1, if_pos h2]
    · simp only [playerPhase, if_neg h1, if_neg h2]
      set g : Bool := decide (w.player.posY + w.player.height ≥ GROUND_Y)
      set w1 := cooldownStep w with hw1
      set w2 := trailStep dp w1 with hw2
      set w3 := spellStep rng inp w2 with hw3
      have e1 : w1.boss = w.boss := cooldownStep_boss w
      have e2 : w2.boss = w1.boss := by rw [hw2, (trailStep_frame dp w1).2]
      have e3 : w3.boss.health = w2.boss.health := (spellStep_frame rng inp w2).2.2.2.2.1
      rcases hR : playerActionStep rng inp g w3 with ⟨w4, halted⟩
      have e4 : w4.boss = w3.boss := by
        have hp := playerActionStep_boss rng inp g w3
        rw [hR] at hp; exact hp
      have e5 := physicsStep_boss rng inp g w4
      have e6 := hitDetectStep_bossHealth dp trig rng (physicsStep rng inp g w4) hi hd
      have e7 := animCleanupStep_boss dp g (hitDetectStep dp trig rng (physicsStep rng inp g w4))
      have e8 := (staminaRegenStep_frame (animCleanupStep dp g
        (hitDetectStep dp trig rng (physicsStep rng inp g w4)))).2
      cases halted <;> simp_all

end Wukong
namespace Wukong
theorem kowtowImpactParticles_frame (rng : Rng) (hx : ℚ) (w : World) :
    (kowtowImpactParticles rng hx w).player = w.player ∧
    (kowtowImpactParticles rng hx w).boss = w.boss := by
  simp only [kowtowImpactParticles]
  simp [withParticles_player, withParticles_boss]

theorem kowtowHitCheck_frame (dp : DebugParams) (rng : Rng) (hx : ℚ) (fr : Bool) (w : World) :
    (kowtowHitCheck dp rng hx fr w).boss = w.boss ∧
    (kowtowHitCheck dp rng hx fr w).player.maxHealth = w.player.maxHealth ∧
    (kowtowHitCheck dp rng hx fr w).player.comboCount = w.player.comboCount := by
  simp only [kowtowHitCheck]
  split_ifs <;> simp [withParticles_player, withParticles_boss]

theorem kowtowHitCheck_playerHealth (dp : DebugParams) (rng : Rng) (hx : ℚ) (fr : Bool)
    (w : World) (h : dp.infinitePlayerHealth = false) :
    (kowtowHitCheck dp rng hx fr w).player.health ≤ w.player.health := by
  simp only [kowtowHitCheck]
  split_ifs <;>
    simp [withParticles_player, applyDamage, h, BOSS_KOWTOW_DAMAGE] <;> linarith

theorem kowtowRecovery_frame (dp : DebugParams) (w : World) :
    (kowtowRecovery dp w).player = w.player ∧
    (kowtowRecovery dp w).boss.health = w.boss.health ∧
    (kowtowRecovery dp w).boss.maxHealth = w.boss.maxHealth := by
  simp only [kowtowRecovery]
  split_ifs <;> simp

theorem bossKowtowStep_frame (dp : DebugParams) (rng : Rng) (w : World) :
    (bossKowtowStep dp rng w).boss.health = w.boss.health ∧
    (bossKowtowStep dp rng w).boss.maxHealth = w.boss.maxHealth ∧
    (bossKowtowStep dp rng w).player.maxHealth = w.player.maxHealth ∧
    (bossKowtowStep dp rng w).player.comboCount = w.player.comboCount := by
  simp only [bossKowtowStep]
  split_ifs <;>
    simp [kowtowRecovery_frame, kowtowHitCheck_frame, kowtowImpactParticles_frame]

theorem bossKowtowStep_playerHealth (dp : DebugParams) (rng : Rng) (w : World)
    (h : dp.infinitePlayerHealth = false) :
    (bossKowtowStep dp rng w).player.health ≤ w.player.health := by
  simp only [bossKowtowStep]
  split_ifs <;> rw [(kowtowRecovery_frame dp _).1] <;>
    first
      | (simp; done)
      | { refine le_trans (kowtowHitCheck_playerHealth dp rng _ _ _ h) ?_
          simp [kowtowImpactParticles_frame] }
end Wukong

namespace Wukong

theorem bossJumpSmashLand_frame (dp : DebugParams) (rng : Rng) (d : ℚ) (w : World) :
    (bossJumpSmashLand dp rng d w).boss.health = w.boss.health ∧
    (bossJumpSmashLand dp rng d w).boss.maxHealth = w.boss.maxHealth ∧
    (bossJumpSmashLand dp rng d w).player.maxHealth = w.player.maxHealth ∧
    (bossJumpSmashLand dp rng d w).player.comboCount = w.player.comboCount := by
  simp only [bossJumpSmashLand]
  split_ifs <;> simp [withParticles_player, withParticles_boss]

theorem bossJumpSmashLand_playerHealth (dp : DebugParams) (rng : Rng) (d : ℚ) (w : World)
    (h : dp.infinitePlayerHealth = false) :
    (bossJumpSmashLand dp rng d w).player.health ≤ w.player.health := by
  simp only [bossJumpSmashLand]
  split_ifs <;>
    simp [withParticles_player, applyDamage, h, BOSS_DAMAGE] <;> linarith

theorem bossRunAdjust_frame (rng : Rng) (d : ℚ) (w : World) :
    (bossRunAdjust rng d w).player = w.player ∧
    (bossRunAdjust rng d w).boss.health = w.boss.health ∧
    (bossRunAdjust rng d w).boss.maxHealth = w.boss.maxHealth := by
  simp only [bossRunAdjust, rand]
  split_ifs <;> simp

theorem bossStandoffStep_frame (rng : Rng) (d : ℚ) (w : World) :
    (bossStandoffStep rng d w).player = w.player ∧
    (bossStandoffStep rng d w).boss.health = w.boss.health ∧
    (bossStandoffStep rng d w).boss.maxHealth = w.boss.maxHealth := by
  simp only [bossStandoffStep, rand]
  split_ifs <;> simp

theorem bossApproachStep_frame (d : ℚ) (w : World) :
    (bossApproachStep d w).player = w.player ∧
    (bossApproachStep d w).boss.health = w.boss.health ∧
    (bossApproachStep d w).boss.maxHealth = w.boss.maxHealth := by
  simp only [bossApproachStep]
  split_ifs <;> simp

theorem bossHitDecayStep_frame (w : World) :
    (bossHitDecayStep w).player = w.player ∧
    (bossHitDecayStep w).boss.health = w.boss.health ∧
    (bossHitDecayStep w).boss.maxHealth = w.boss.maxHealth := by
  simp only [bossHitDecayStep]
  split_ifs <;> simp

theorem bossPhysicsStep_frame (w : World) :
    (bossPhysicsStep w).player = w.player ∧
    (bossPhysicsStep w).boss.health = w.boss.health ∧
    (bossPhysicsStep w).boss.maxHealth = w.boss.maxHealth := by
  simp only [bossPhysicsStep]
  split_ifs <;> simp

theorem bossJumpSmashTrigger_frame (rng : Rng) (d : ℚ) (w : World) :
    (bossJumpSmashTrigger rng d w).player = w.player ∧
    (bossJumpSmashTrigger rng d w).boss.health = w.boss.health ∧
    (bossJumpSmashTrigger rng d w).boss.maxHealth = w.boss.maxHealth := by
  simp only [bossJumpSmashTrigger, rand]
  split_ifs <;> simp [bossRunAdjust_frame]

theorem bossNormalDispatch_frame (dp : DebugParams) (rng : Rng) (d : ℚ) (w : World) :
    (bossNormalDispatch dp rng d w).boss.health = w.boss.health ∧
    (bossNormalDispatch dp rng d w).boss.maxHealth = w.boss.maxHealth ∧
    (bossNormalDispatch dp rng d w).player.maxHealth = w.player.maxHealth ∧
    (bossNormalDispatch dp rng d w).player.comboCount = w.player.comboCount := by
  simp only [bossNormalDispatch]
  split_ifs <;>
    simp [bossJumpSmashTrigger_frame, bossJumpSmashLand_frame, bossStandoffStep_frame,
      bossApproachStep_frame]

theorem bossNormalDispatch_playerHealth (dp : DebugParams) (rng : Rng) (d : ℚ) (w : World)
    (h : dp.infinitePlayerHealth = false) :
    (bossNormalDispatch dp rng d w).player.health ≤ w.player.health := by
  simp only [bossNormalDispatch]
  split_ifs <;>
    first
      | (simp [bossJumpSmashTrigger_frame, bossStandoffStep_frame, bossApproachStep_frame]
          ; done)
      | { refine le_trans (bossJumpSmashLand_playerHealth dp rng _ _ h) ?_
          simp [bossJumpSmashTrigger_frame] }

theorem bossAIDispatch_frame (dp : DebugParams) (rng : Rng) (d : ℚ) (w : World) :
    (bossAIDispatch dp rng d w).boss.health = w.boss.health ∧
    (bossAIDispatch dp rng d w).boss.maxHealth = w.boss.maxHealth ∧
    (bossAIDispatch dp rng d w).player.maxHealth = w.player.maxHealth ∧
    (bossAIDispatch dp rng d w).player.comboCount = w.player.comboCount := by
  simp only [bossAIDispatch]
  split_ifs <;>
    simp [bossKowtowStep_frame, bossNormalDispatch_frame, bossHitDecayStep_frame]

theorem bossAIDispatch_playerHealth (dp : DebugParams) (rng : Rng) (d : ℚ) (w : World)
    (h : dp.infinitePlayerHealth = false) :
    (bossAIDispatch dp rng d w).player.health ≤ w.player.health := by
  simp only [bossAIDispatch]
  split_ifs <;>
    first
      | (simp [bossHitDecayStep_frame]; done)
      | exact bossKowtowStep_playerHealth dp rng w h
      | exact bossNormalDispatch_playerHealth dp rng d w h
      | exact le_refl _

theorem bossActiveStep_frame (dp : DebugParams) (rng : Rng) (w : World) :
    (bossActiveStep dp rng w).boss.health = w.boss.health ∧
    (bossActiveStep dp rng w).boss.maxHealth = w.boss.maxHealth ∧
    (bossActiveStep dp rng w).player.maxHealth = w.player.maxHealth ∧
    (bossActiveStep dp rng w).player.comboCount = w.player.comboCount := by
  simp only [bossActiveStep]
  simp only [bossPhysicsStep_frame, bossAIDispatch_frame]
  split_ifs <;> simp

theorem bossActiveStep_playerHealth (dp : DebugParams) (rng : Rng) (w : World)
    (h : dp.infinitePlayerHealth = false) :
    (bossActiveStep dp rng w).player.health ≤ w.player.health := by
  simp only [bossActiveStep]
  rw [(bossPhysicsStep_frame _).1]
  refine le_trans (bossAIDispatch_playerHealth dp rng _ _ h) ?_
  simp only [World.player, le_refl]

theorem bossReactionOverride_health (dp : DebugParams) (b : Entity) :
    (bossReactionOverride dp b).health = b.health ∧
    (bossReactionOverride dp b).maxHealth = b.maxHealth := by
  rcases hB : dp.bossBehavior with _ | _ | _ <;>
    simp only [bossReactionOverride, hB] <;> (try split_ifs) <;> simp

theorem bossImmobilizeCountdown_frame (rng : Rng) (w : World) :
    (bossImmobilizeCountdown rng w).player = w.player ∧
    (bossImmobilizeCountdown rng w).boss.health = w.boss.health ∧
    (bossImmobilizeCountdown rng w).boss.maxHealth = w.boss.maxHealth := by
  simp only [bossImmobilizeCountdown, rand]
  split_ifs <;> simp [withParticles_player, withParticles_boss]

theorem bossPhase_frame (dp : DebugParams) (rng : Rng) (w : World) :
    (bossPhase dp rng w).boss.health = w.boss.health ∧
    (bossPhase dp rng w).boss.maxHealth = w.boss.maxHealth ∧
    (bossPhase dp rng w).player.maxHealth = w.player.maxHealth ∧
    (bossPhase dp rng w).player.comboCount = w.player.comboCount := by
  simp only [bossPhase]
  split_ifs <;>
    simp [bossImmobilizeCountdown_frame, bossActiveStep_frame,
      bossReactionOverride_health, apply_ite Entity.health, apply_ite Entity.maxHealth,
      ite_self]

theorem bossPhase_playerHealth (dp : DebugParams) (rng : Rng) (w : World)
    (h : dp.infinitePlayerHealth = false) :
    (bossPhase dp rng w).player.health ≤ w.player.health := by
  simp only [bossPhase]
  split_ifs <;>
    first
      | (simp [bossImmobilizeCountdown_frame]; done)
      | { refine le_trans (bossActiveStep_playerHealth dp rng _ h) ?_
          simp only [World.player, le_refl] }
      | exact le_refl _

theorem deathCheckStep_frame (dp : DebugParams) (w : World) :
    (deathCheckStep dp w).player = w.player ∧
    (deathCheckStep dp w).boss.maxHealth = w.boss.maxHealth := by
  simp only [deathCheckStep]
  split_ifs <;> simp

theorem deathCheckStep_bossHealth (dp : DebugParams) (w : World)
    (h : dp.infiniteHealth = false) :
    (deathCheckStep dp w).boss.health = w.boss.health := by
  simp only [deathCheckStep]
  split_ifs <;> simp_all

theorem resolveEntityCollision_frame (w : World) :
    (resolveEntityCollision w).player.health = w.player.health ∧
    (resolveEntityCollision w).player.maxHealth = w.player.maxHealth ∧
    (resolveEntityCollision w).player.comboCount = w.player.comboCount ∧
    (resolveEntityCollision w).boss.health = w.boss.health ∧
    (resolveEntityCollision w).boss.maxHealth = w.boss.maxHealth := by
  simp only [resolveEntityCollision]
  split_ifs <;> simp

theorem collisionStep_frame (w : World) :
    (collisionStep w).player.health = w.player.health ∧
    (collisionStep w).player.maxHealth = w.player.maxHealth ∧
    (collisionStep w).player.comboCount = w.player.comboCount ∧
    (collisionStep w).boss.health = w.boss.health ∧
    (collisionStep w).boss.maxHealth = w.boss.maxHealth := by
  simp only [collisionStep]
  split_ifs <;> simp [resolveEntityCollision_frame]

theorem particlesStep_entities (rng : Rng) (w : World) :
    (particlesStep rng w).player = w.player ∧ (particlesStep rng w).boss = w.boss := by
  simp only [particlesStep, rand]
  split_ifs <;> simp

theorem cameraStep_entities (w : World) :
    (cameraStep w).player = w.player ∧ (cameraStep w).boss = w.boss := by
  simp [cameraStep]

theorem shakeDecay_frame (w : World) :
    (shakeDecay w).player = w.player ∧ (shakeDecay w).boss = w.boss ∧
    (shakeDecay w).particles = w.particles ∧ (shakeDecay w).cameraX = w.cameraX ∧
    (shakeDecay w).gameState = w.gameState ∧ (shakeDecay w).stamina = w.stamina ∧
    (shakeDecay w).score = w.score := by
  simp [shakeDecay]

end Wukong
namespace Wukong

theorem update_playerHealth (dp : DebugParams) (trig : TrigOracle) (rng : Rng) (inp : Input)
    (w : World) (h : dp.infinitePlayerHealth = false) :
    (update dp trig rng inp w).player.health ≤ w.player.health := by
  simp only [update]
  by_cases hg : w.gameState ≠ GameState.PLAYING
  · rw [if_pos hg]
  · rw [if_neg hg]
    rcases hR : playerPhase dp trig rng inp (shakeDecay w) with ⟨w1, halted⟩
    have e0 := (shakeDecay_frame w).1
    have e1 : w1.player.health = (shakeDecay w).player.health := by
      have hx := playerPhase_health dp trig rng inp (shakeDecay w)
      rw [hR] at hx; exact hx
    have e2 := bossPhase_playerHealth dp rng w1 h
    have e3 := (deathCheckStep_frame dp (bossPhase dp rng w1)).1
    have e4 := (collisionStep_frame (deathCheckStep dp (bossPhase dp rng w1))).1
    have e5 := (particlesStep_entities rng
      (collisionStep (deathCheckStep dp (bossPhase dp rng w1)))).1
    have e6 := (cameraStep_entities (particlesStep rng
      (collisionStep (deathCheckStep dp (bossPhase dp rng w1))))).1
    cases halted <;> simp_all

theorem update_playerMaxHealth (dp : DebugParams) (trig : TrigOracle) (rng : Rng)
    (inp : Input) (w : World) :
    (update dp trig rng inp w).player.maxHealth = w.player.maxHealth := by
  simp only [update]
  by_cases hg : w.gameState ≠ GameState.PLAYING
  · rw [if_pos hg]
  · rw [if_neg hg]
    rcases hR : playerPhase dp trig rng inp (shakeDecay w) with ⟨w1, halted⟩
    have e0 := (shakeDecay_frame w).1
    have e1 : w1.player.maxHealth = (shakeDecay w).player.maxHealth := by
      have hx := playerPhase_maxHealth dp trig rng inp (shakeDecay w)
      rw [hR] at hx; exact hx
    have e2 := (bossPhase_frame dp rng w1).2.2.1
    have e3 := (deathCheckStep_frame dp (bossPhase dp rng w1)).1
    have e4 := (collisionStep_frame (deathCheckStep dp (bossPhase dp rng w1))).2.1
    have e5 := (particlesStep_entities rng
      (collisionStep (deathCheckStep dp (bossPhase dp rng w1)))).1
    have e6 := (cameraStep_entities (particlesStep rng
      (collisionStep (deathCheckStep dp (bossPhase dp rng w1))))).1
    cases halted <;> simp_all

theorem update_bossHealth (dp : DebugParams) (trig : TrigOracle) (rng : Rng) (inp : Input)
    (w : World) (h1 : dp.infiniteHealth = false) (h2 : 0 ≤ dp.c3TotalDamage) :
    (update dp trig rng inp w).boss.health ≤ w.boss.health := by
  simp only [update]
  by_cases hg : w.gameState ≠ GameState.PLAYING
  · rw [if_pos hg]
  · rw [if_neg hg]
    rcases hR : playerPhase dp trig rng inp (shakeDecay w) with ⟨w1, halted⟩
    have e0 := (shakeDecay_frame w).2.1
    have e1 : w1.boss.health ≤ (shakeDecay w).boss.health := by
      have hx := playerPhase_bossHealth dp trig rng inp (shakeDecay w) h1 h2
      rw [hR] at hx; exact hx
    have e2 := (bossPhase_frame dp rng w1).1
    have e3 := deathCheckStep_bossHealth dp (bossPhase dp rng w1) h1
    have e4 := (collisionStep_frame (deathCheckStep dp (bossPhase dp rng w1))).2.2.2.1
    have e5 := (particlesStep_entities rng
      (collisionStep (deathCheckStep dp (bossPhase dp rng w1)))).2
    have e6 := (cameraStep_entities (particlesStep rng
      (collisionStep (deathCheckStep dp (bossPhase dp rng w1))))).2
    cases halted <;> simp_all

theorem update_bossMaxHealth (dp : DebugParams) (trig : TrigOracle) (rng : Rng) (inp : Input)
    (w : World) :
    (update dp trig rng inp w).boss.maxHealth = w.boss.maxHealth := by
  simp only [update]
  by_cases hg : w.gameState ≠ GameState.PLAYING
  · rw [if_pos hg]
  · rw [if_neg hg]
    rcases hR : playerPhase dp trig rng inp (shakeDecay w) with ⟨w1, halted⟩
    have e0 := (shakeDecay_frame w).2.1
    have e1 : w1.boss.maxHealth = (shakeDecay w).boss.maxHealth := by
      have hx := playerPhase_bossMaxHealth dp trig rng inp (shakeDecay w)
      rw [hR] at hx; exact hx
    have e2 := (bossPhase_frame dp rng w1).2.1
    have e3 := (deathCheckStep_frame dp (bossPhase dp rng w1)).2
    have e4 := (collisionStep_frame (deathCheckStep dp (bossPhase dp rng w1))).2.2.2.2
    have e5 := (particlesStep_entities rng
      (collisionStep (deathCheckStep dp (bossPhase dp rng w1)))).2
    have e6 := (cameraStep_entities (particlesStep rng
      (collisionStep (deathCheckStep dp (bossPhase dp rng w1))))).2
    cases halted <;> simp_all

theorem update_comboCount (dp : DebugParams) (trig : TrigOracle) (rng : Rng) (inp : Input)
    (w : World) (h : w.player.comboCount ≤ 4) :
    (update dp trig rng inp w).player.comboCount ≤ 4 := by
  simp only [update]
  by_cases hg : w.gameState ≠ GameState.PLAYING
  · rw [if_pos hg]; exact h
  · rw [if_neg hg]
    rcases hR : playerPhase dp trig rng inp (shakeDecay w) with ⟨w1, halted⟩
    have e0 := (shakeDecay_frame w).1
    have e1 : w1.player.comboCount ≤ 4 := by
      have hx := playerPhase_comboCount dp trig rng inp (shakeDecay w) (by rw [e0]; exact h)
      rw [hR] at hx; exact hx
    have e2 := (bossPhase_frame dp rng w1).2.2.2
    have e3 := (deathCheckStep_frame dp (bossPhase dp rng w1)).1
    have e4 := (collisionStep_frame (deathCheckStep dp (bossPhase dp rng w1))).2.2.1
    have e5 := (particlesStep_entities rng
      (collisionStep (deathCheckStep dp (bossPhase dp rng w1)))).1
    have e6 := (cameraStep_entities (particlesStep rng
      (collisionStep (deathCheckStep dp (bossPhase dp rng w1))))).1
    cases halted <;> simp_all

end Wukong
namespace Wukong

-- Concrete scenario worlds used by the counterexample theorems.

/-- A player one frame into the second combo swing, standing next to a
boss with 12 health left. -/
def wC1cex : World :=
  { initialWorld with
    player := { initialPlayer with posY := 350, state := EState.attack, comboCount := 2,
                                   animFrame := 1, attackCooldown := 5 },
    boss := { initialBoss with posX := 180, posY := 300, health := 12 } }

/-- C1: at the default debug parameters both health pools only ever
decrease and both max pools are fixed, so `health ≤ maxHealth` is
preserved by every tick; this is the half of the claimed invariant that
holds.  (The lower bound and the clamp before reporting are refuted by
`C1_reported_health_negative`.) -/
theorem C1_health_upper_bound (trig : TrigOracle) (rng : Rng) (inp : Input) (w : World)
    (hp : w.player.health ≤ w.player.maxHealth) (hb : w.boss.health ≤ w.boss.maxHealth) :
    (update defaultDebugParams trig rng inp w).player.health ≤
      (update defaultDebugParams trig rng inp w).player.maxHealth ∧
    (update defaultDebugParams trig rng inp w).boss.health ≤
      (update defaultDebugParams trig rng inp w).boss.maxHealth := by
  constructor
  · rw [update_playerMaxHealth]
    exact le_trans (update_playerHealth defaultDebugParams trig rng inp w rfl) hp
  · rw [update_bossMaxHealth]
    exact le_trans (update_bossHealth defaultDebugParams trig rng inp w rfl
        (by with_unfolding_all decide)) hb

theorem C1_health_upper_bound_witness :
    (wC1cex.player.health ≤ wC1cex.player.maxHealth ∧
     wC1cex.boss.health ≤ wC1cex.boss.maxHealth) ∧
    ((update defaultDebugParams trig0 rngHalf inp0 wC1cex).player.health ≤
      (update defaultDebugParams trig0 rngHalf inp0 wC1cex).player.maxHealth ∧
     (update defaultDebugParams trig0 rngHalf inp0 wC1cex).boss.health ≤
      (update defaultDebugParams trig0 rngHalf inp0 wC1cex).boss.maxHealth) :=
  ⟨⟨by with_unfolding_all decide, by with_unfolding_all decide⟩,
   C1_health_upper_bound trig0 rngHalf inp0 wC1cex
     (by with_unfolding_all decide) (by with_unfolding_all decide)⟩

/-- C1 counterexample: from a legal state (healths within [0, max]), one
tick drives the boss health to −6 and reports exactly that negative
value through the health callback — there is no clamp. -/
theorem C1_reported_health_negative :
    0 ≤ wC1cex.boss.health ∧ wC1cex.boss.health ≤ wC1cex.boss.maxHealth ∧
    0 ≤ wC1cex.reportedBossHealth ∧
    (update defaultDebugParams trig0 rngHalf inp0 wC1cex).boss.health < 0 ∧
    (update defaultDebugParams trig0 rngHalf inp0 wC1cex).reportedBossHealth < 0 := by
  with_unfolding_all decide

end Wukong
namespace Wukong

theorem hitCommonTail_hitStop (rng : Rng) (dmg : ℚ) (mh : Bool) (w : World) :
    (hitCommonTail rng dmg mh w).player.hitStop = w.player.hitStop := by
  cases mh <;> (simp only [hitCommonTail]; split_ifs <;> simp [withParticles_player])

theorem immobilizedHitBranch_noBreak (rng : Rng) (dmg : ℚ) (mh : Bool) (w : World)
    (b : Entity) (hle : b.immobilizeDamageTaken + dmg ≤ IMMOBILIZE_BREAK_THRESHOLD) :
    (immobilizedHitBranch rng dmg mh w b).boss.isImmobilized = b.isImmobilized ∧
    (immobilizedHitBranch rng dmg mh w b).boss.state = b.state ∧
    (immobilizedHitBranch rng dmg mh w b).boss.vx = b.vx ∧
    (immobilizedHitBranch rng dmg mh w b).boss.hitStop = 3 ∧
    (immobilizedHitBranch rng dmg mh w b).player.hitStop = 3 ∧
    (immobilizedHitBranch rng dmg mh w b).boss.immobilizeDamageTaken =
      b.immobilizeDamageTaken + dmg := by
  simp only [immobilizedHitBranch]
  rw [if_neg (by simpa using not_lt.2 hle)]
  simp [withParticles_player, withParticles_boss]

theorem immobilizedHitBranch_break (rng : Rng) (dmg : ℚ) (mh : Bool) (w : World)
    (b : Entity) (hgt : b.immobilizeDamageTaken + dmg > IMMOBILIZE_BREAK_THRESHOLD) :
    (immobilizedHitBranch rng dmg mh w b).boss.isImmobilized = false ∧
    (immobilizedHitBranch rng dmg mh w b).boss.state = EState.hit ∧
    ((immobilizedHitBranch rng dmg mh w b).boss.vx = 8 ∨
     (immobilizedHitBranch rng dmg mh w b).boss.vx = -8) ∧
    (immobilizedHitBranch rng dmg mh w b).boss.hitStop = 18 ∧
    (immobilizedHitBranch rng dmg mh w b).player.hitStop = 18 ∧
    (immobilizedHitBranch rng dmg mh w b).boss.immobilizeDamageTaken = 0 ∧
    (immobilizedHitBranch rng dmg mh w b).boss.immobilizeTimer = 0 := by
  simp only [immobilizedHitBranch]
  rw [if_pos (by simpa using hgt)]
  split_ifs <;> simp [withParticles_player, withParticles_boss]

/-- C2: a hit landed while the boss is immobilized.  If the accumulated
break damage stays at or below the threshold the freeze survives: the
state tag and knockback velocity are untouched and both sides get only
the muted 3-tick hitstop.  If it exceeds the threshold the freeze is
cleared in the same tick (timer and accumulator zeroed), the boss is
forced into `hit` with ±8 knockback, and both combatants get the
guaranteed 18-tick minimum hitstop. -/
theorem C2_immobilize_break (dp : DebugParams) (rng : Rng) (dmg : ℚ) (mh : Bool)
    (w : World) (him : w.boss.isImmobilized = true) :
    (w.boss.immobilizeDamageTaken + dmg ≤ IMMOBILIZE_BREAK_THRESHOLD →
      (registerHit dp rng dmg mh w).boss.isImmobilized = true ∧
      (registerHit dp rng dmg mh w).boss.state = w.boss.state ∧
      (registerHit dp rng dmg mh w).boss.vx = w.boss.vx ∧
      (registerHit dp rng dmg mh w).boss.hitStop = 3 ∧
      (registerHit dp rng dmg mh w).player.hitStop = 3 ∧
      (registerHit dp rng dmg mh w).boss.immobilizeDamageTaken =
        w.boss.immobilizeDamageTaken + dmg) ∧
    (w.boss.immobilizeDamageTaken + dmg > IMMOBILIZE_BREAK_THRESHOLD →
      (registerHit dp rng dmg mh w).boss.isImmobilized = false ∧
      (registerHit dp rng dmg mh w).boss.state = EState.hit ∧
      ((registerHit dp rng dmg mh w).boss.vx = 8 ∨
       (registerHit dp rng dmg mh w).boss.vx = -8) ∧
      (registerHit dp rng dmg mh w).boss.hitStop = 18 ∧
      (registerHit dp rng dmg mh w).player.hitStop = 18 ∧
      (registerHit dp rng dmg mh w).boss.immobilizeDamageTaken = 0 ∧
      (registerHit dp rng dmg mh w).boss.immobilizeTimer = 0) := by
  have hreg : registerHit dp rng dmg mh w =
      hitCommonTail rng dmg mh (immobilizedHitBranch rng dmg mh w
        { w.boss with
          health := applyDamage dp.infiniteHealth w.boss.maxHealth w.boss.health dmg }) := by
    simp only [registerHit]
    rw [if_pos (by simpa using him)]
  constructor
  · intro hle
    have h1 := immobilizedHitBranch_noBreak rng dmg mh w
      { w.boss with
        health := applyDamage dp.infiniteHealth w.boss.maxHealth w.boss.health dmg }
      (by simpa using hle)
    have h2 := (hitCommonTail_frame rng dmg mh (immobilizedHitBranch rng dmg mh w
      { w.boss with
        health := applyDamage dp.infiniteHealth w.boss.maxHealth w.boss.health dmg })).1
    have h3 := hitCommonTail_hitStop rng dmg mh (immobilizedHitBranch rng dmg mh w
      { w.boss with
        health := applyDamage dp.infiniteHealth w.boss.maxHealth w.boss.health dmg })
    rw [hreg, h2, h3]
    simpa [him] using h1
  · intro hgt
    have h1 := immobilizedHitBranch_break rng dmg mh w
      { w.boss with
        health := applyDamage dp.infiniteHealth w.boss.maxHealth w.boss.health dmg }
      (by simpa using hgt)
    have h2 := (hitCommonTail_frame rng dmg mh (immobilizedHitBranch rng dmg mh w
      { w.boss with
        health := applyDamage dp.infiniteHealth w.boss.maxHealth w.boss.health dmg })).1
    have h3 := hitCommonTail_hitStop rng dmg mh (immobilizedHitBranch rng dmg mh w
      { w.boss with
        health := applyDamage dp.infiniteHealth w.boss.maxHealth w.boss.health dmg })
    rw [hreg, h2, h3]
    exact h1

/-- An immobilized boss 70 points into the 80-point break budget. -/
def wC2wit : World :=
  { initialWorld with
    boss := { initialBoss with isImmobilized := true, immobilizeTimer := 120,
                               immobilizeDamageTaken := 70 } }

theorem C2_immobilize_break_witness :
    wC2wit.boss.isImmobilized = true ∧
    (wC2wit.boss.immobilizeDamageTaken + 5 ≤ IMMOBILIZE_BREAK_THRESHOLD →
      (registerHit defaultDebugParams rngHalf 5 false wC2wit).boss.isImmobilized = true ∧
      (registerHit defaultDebugParams rngHalf 5 false wC2wit).boss.state = wC2wit.boss.state ∧
      (registerHit defaultDebugParams rngHalf 5 false wC2wit).boss.vx = wC2wit.boss.vx ∧
      (registerHit defaultDebugParams rngHalf 5 false wC2wit).boss.hitStop = 3 ∧
      (registerHit defaultDebugParams rngHalf 5 false wC2wit).player.hitStop = 3 ∧
      (registerHit defaultDebugParams rngHalf 5 false wC2wit).boss.immobilizeDamageTaken =
        wC2wit.boss.immobilizeDamageTaken + 5) ∧
    (wC2wit.boss.immobilizeDamageTaken + 5 > IMMOBILIZE_BREAK_THRESHOLD →
      (registerHit defaultDebugParams rngHalf 5 false wC2wit).boss.isImmobilized = false ∧
      (registerHit defaultDebugParams rngHalf 5 false wC2wit).boss.state = EState.hit ∧
      ((registerHit defaultDebugParams rngHalf 5 false wC2wit).boss.vx = 8 ∨
       (registerHit defaultDebugParams rngHalf 5 false wC2wit).boss.vx = -8) ∧
      (registerHit defaultDebugParams rngHalf 5 false wC2wit).boss.hitStop = 18 ∧
      (registerHit defaultDebugParams rngHalf 5 false wC2wit).player.hitStop = 18 ∧
      (registerHit defaultDebugParams rngHalf 5 false wC2wit).boss.immobilizeDamageTaken = 0 ∧
      (registerHit defaultDebugParams rngHalf 5 false wC2wit).boss.immobilizeTimer = 0) :=
  ⟨by with_unfolding_all decide,
   C2_immobilize_break defaultDebugParams rngHalf 5 false wC2wit
     (by with_unfolding_all decide)⟩

end Wukong
namespace Wukong

/-- C9: casting the immobilize spell — also while the boss is already
immobilized — sets the timer to the full 300 ticks and zeroes the
accumulated break damage, discarding all break progress; the 30-tick
spell cooldown restarts. -/
theorem C9_immobilize_recast (rng : Rng) (inp : Input) (w : World)
    (h1 : inp.spell = true) (h2 : w.player.spellCooldown = 0)
    (h3 : w.boss.isDead = false)
    (h4 : (w.player.facingRight = true ∧ w.boss.posX - w.player.posX > 0) ∨
          (w.player.facingRight = false ∧ w.boss.posX - w.player.posX < 0))
    (h5 : |w.boss.posX - w.player.posX| < 600) :
    (spellStep rng inp w).boss.isImmobilized = true ∧
    (spellStep rng inp w).boss.immobilizeTimer = 300 ∧
    (spellStep rng inp w).boss.immobilizeDamageTaken = 0 ∧
    (spellStep rng inp w).player.spellCooldown = 30 := by
  simp only [spellStep]
  rw [if_pos ⟨h1, h2, h3⟩, if_pos ⟨h4, h5⟩]
  simp [withParticles_boss, withParticles_player]

/-- An immobilized boss with 37 ticks left on the freeze and 50 break
damage banked; the spell key is down and the cooldown has elapsed. -/
def wC9wit : World :=
  { initialWorld with
    boss := { initialBoss with isImmobilized := true, immobilizeTimer := 37,
                               immobilizeDamageTaken := 50 } }

def inpSpell : Input := { inp0 with spell := true }

theorem C9_immobilize_recast_witness :
    (wC9wit.boss.isImmobilized = true ∧ wC9wit.boss.immobilizeTimer = 37 ∧
     wC9wit.boss.immobilizeDamageTaken = 50) ∧
    ((spellStep rngHalf inpSpell wC9wit).boss.isImmobilized = true ∧
     (spellStep rngHalf inpSpell wC9wit).boss.immobilizeTimer = 300 ∧
     (spellStep rngHalf inpSpell wC9wit).boss.immobilizeDamageTaken = 0 ∧
     (spellStep rngHalf inpSpell wC9wit).player.spellCooldown = 30) :=
  ⟨by with_unfolding_all decide,
   C9_immobilize_recast rngHalf inpSpell wC9wit rfl rfl rfl
     (Or.inl ⟨rfl, by with_unfolding_all decide⟩) (by with_unfolding_all decide)⟩

/-- C10: releasing a charged heavy attack writes stamina to exactly 0
whatever its current value; a dodge instead subtracts the fixed 20-point
cost, clamped at 0. -/
theorem C10_stamina (rng : Rng) (inp : Input) (g : Bool) (w : World) :
    (inp.dodge = false → inp.attack = false →
     w.player.state ≠ EState.dodge → w.player.state ≠ EState.hit →
     w.player.chargeTimer > CHARGE_THRESHOLD →
     (playerActionStep rng inp g w).1.stamina = 0) ∧
    (inp.dodge = true → w.player.dodgeCooldown = 0 →
     w.player.state ≠ EState.dodge → w.player.state ≠ EState.hit →
     (playerActionStep rng inp g w).1.stamina = max 0 (w.stamina - DODGE_STAMINA_COST)) := by
  constructor
  · intro hd ha hsd hsh hct
    have hct0 : w.player.chargeTimer > 0 := by
      have : (0:ℕ) < CHARGE_THRESHOLD := by norm_num [CHARGE_THRESHOLD]
      omega
    simp only [playerActionStep, hd, ha]
    simp [hsd, hsh, hct, hct0]
  · intro hd hcd hsd hsh
    simp only [playerActionStep, hd, hcd]
    simp [hsd, hsh, withParticles_stamina]

/-- A grounded player 25 ticks into the charge with 73 stamina. -/
def wC10heavy : World :=
  { initialWorld with player := { initialPlayer with posY := 350, chargeTimer := 25 },
                      stamina := 73 }

/-- A grounded idle player with 73 stamina. -/
def wC10dodge : World :=
  { initialWorld with player := { initialPlayer with posY := 350 }, stamina := 73 }

def inpDodge : Input := { inp0 with dodge := true }

theorem C10_stamina_witness :
    (playerActionStep rngHalf inp0 true wC10heavy).1.stamina = 0 ∧
    (playerActionStep rngHalf inpDodge true wC10dodge).1.stamina =
      max 0 (wC10dodge.stamina - DODGE_STAMINA_COST) :=
  ⟨(C10_stamina rngHalf inp0 true wC10heavy).1 rfl rfl
     (by with_unfolding_all decide) (by with_unfolding_all decide)
     (by with_unfolding_all decide),
   (C10_stamina rngHalf inpDodge true wC10dodge).2 rfl rfl
     (by with_unfolding_all decide) (by with_unfolding_all decide)⟩

end Wukong
namespace Wukong

/-- C3 (amended): the freeze statement that actually holds.  A player in
hitstop spends the whole player phase on the single decrement.  A boss
whose hitstop is at least 2 (so still positive after the tick's
decrement) and who is neither dead nor immobilized gets exactly the
decrement and nothing else.  At `hitStop = 1` the decrement happens
first and the AI runs in the same tick — see
`C3_boss_acts_on_last_hitstop_tick`. -/
theorem C3_hitstop_freeze (dp : DebugParams) (trig : TrigOracle) (rng : Rng) (inp : Input)
    (w : World) (hp : w.player.hitStop > 0) (hb : w.boss.hitStop ≥ 2)
    (hbd : w.boss.isDead = false) (him : w.boss.isImmobilized = false) :
    playerPhase dp trig rng inp w =
      ({ w with player := { w.player with hitStop := w.player.hitStop - 1 } }, false) ∧
    bossPhase dp rng w =
      { w with boss := { w.boss with hitStop := w.boss.hitStop - 1 } } := by
  constructor
  · simp only [playerPhase]
    rw [if_pos hp]
  · have h1 : w.boss.hitStop > 0 := by omega
    have h2 : w.boss.hitStop - 1 > 0 := by omega
    have h3 : ¬(w.boss.hitStop - 1 = 0) := by omega
    simp only [bossPhase]
    rw [if_neg (by simp [hbd])]
    simp [h1, h2, h3, him]

/-- Both combatants one hitstop tick from thawing; the boss mid-idle
with a running attack cooldown. -/
def wC3cex : World :=
  { initialWorld with
    player := { initialPlayer with posY := 350, hitStop := 1 },
    boss := { initialBoss with posX := 400, posY := 300, hitStop := 1,
                               attackCooldown := 50 } }

theorem C3_hitstop_freeze_witness :
    let w : World :=
      { initialWorld with
        player := { initialPlayer with posY := 350, hitStop := 4 },
        boss := { initialBoss with posX := 400, posY := 300, hitStop := 5,
                                   attackCooldown := 50 } }
    playerPhase defaultDebugParams trig0 rngHalf inp0 w =
      ({ w with player := { w.player with hitStop := w.player.hitStop - 1 } }, false) ∧
    bossPhase defaultDebugParams rngHalf w =
      { w with boss := { w.boss with hitStop := w.boss.hitStop - 1 } } :=
  C3_hitstop_freeze defaultDebugParams trig0 rngHalf inp0 _
    (by with_unfolding_all decide) (by with_unfolding_all decide)
    (by with_unfolding_all decide) (by with_unfolding_all decide)

/-- C3 counterexample: with `hitStop = 1` at the start of the tick the
boss both loses the hitstop point and acts in the same tick — its
attack cooldown ticks down and its AI leaves `idle` — refuting the
claimed freeze of AI decisions and cooldowns while hitstop is nonzero. -/
theorem C3_boss_acts_on_last_hitstop_tick :
    wC3cex.boss.hitStop = 1 ∧
    (update defaultDebugParams trig0 rngHalf inp0 wC3cex).boss.hitStop = 0 ∧
    (update defaultDebugParams trig0 rngHalf inp0 wC3cex).boss.attackCooldown = 49 ∧
    wC3cex.boss.attackCooldown = 50 ∧
    (update defaultDebugParams trig0 rngHalf inp0 wC3cex).boss.state = EState.standoff ∧
    wC3cex.boss.state = EState.idle := by
  with_unfolding_all decide

/-- C4 (amended): the tick function consumes no state outside its
arguments, so two runs agree as soon as the per-tick inputs AND the
per-tick random streams agree.  The claimed determinism from inputs and
frame deltas alone fails because `Math.random()` is a third, unseeded
input — see `C4_rng_divergence`. -/
theorem C4_determinism_given_rng (dp : DebugParams) (trig : TrigOracle)
    (ins1 ins2 : ℕ → Input) (rngs1 rngs2 : ℕ → Rng) (n : ℕ) (w : World)
    (hi : ∀ k, k < n → ins1 k = ins2 k) (hr : ∀ k, k < n → rngs1 k = rngs2 k) :
    runTicks dp trig ins1 rngs1 n w = runTicks dp trig ins2 rngs2 n w := by
  induction n with
  | zero => rfl
  | succ m ih =>
    simp only [runTicks]
    rw [ih (fun k hk => hi k (by omega)) (fun k hk => hr k (by omega)),
        hi m (by omega), hr m (by omega)]

theorem C4_determinism_given_rng_witness :
    runTicks defaultDebugParams trig0 (fun _ => inp0) (fun _ => rngZero) 3 initialWorld =
    runTicks defaultDebugParams trig0 (fun _ => inp0) (fun _ => rngZero) 3 initialWorld :=
  C4_determinism_given_rng defaultDebugParams trig0 _ _ _ _ 3 initialWorld
    (fun _ _ => rfl) (fun _ _ => rfl)

/-- A boss in standoff inside the 200..350 band, where the AI rolls
`Math.random() < 0.01` to drop back to idle. -/
def wC4cex : World :=
  { initialWorld with
    player := { initialPlayer with posY := 350 },
    boss := { initialBoss with state := EState.standoff, posX := 320, posY := 300,
                               attackCooldown := 50 } }

/-- C4 counterexample: same world, same input, same elapsed time — only
the random draws differ — and the two runs already disagree on the
boss's state after one tick. -/
theorem C4_rng_divergence :
    (update defaultDebugParams trig0 rngZero inp0 wC4cex).boss.state = EState.idle ∧
    (update defaultDebugParams trig0 rngHalf inp0 wC4cex).boss.state = EState.standoff := by
  with_unfolding_all decide

end Wukong
namespace Wukong

theorem drain_spec (a : ℚ) (h : 0 ≤ a) :
    a = ((drain a).1 : ℚ) * FIXED_TIME_STEP + (drain a).2 ∧
    0 ≤ (drain a).2 ∧ (drain a).2 < FIXED_TIME_STEP := by
  induction a using drain.induct with
  | case1 a hge ih =>
    have h2 : (0:ℚ) ≤ a - FIXED_TIME_STEP := by
      have : (0:ℚ) < FIXED_TIME_STEP := by norm_num [FIXED_TIME_STEP]
      linarith
    have := ih h2
    rw [drain, dif_pos hge]
    push_cast
    constructor
    · linarith [this.1]
    · exact this.2
  | case2 a hlt =>
    rw [drain, dif_neg hlt]
    refine ⟨by push_cast; ring, h, ?_⟩
    simpa using not_le.1 hlt

end Wukong
namespace Wukong

/-- C5: one frame of the fixed-step driver.  `draw()` runs exactly once;
the accumulator after the frame together with the tick count
decomposes the capped accumulator `min (acc + delta) 100` as
`ticks * (1000/60) + remainder` with `0 ≤ remainder < 1000/60` — i.e.
`update()` runs once per full tick contained in the capped backlog
(excess over 100 ms is discarded, never simulated), each run consumes
exactly one tick duration, and the remainder is carried forward. -/
theorem C5_fixed_step_driver (acc delta : ℚ) (h0 : 0 ≤ acc) (hd : 0 ≤ delta) :
    (frameStep acc delta).2.2 = 1 ∧
    min (acc + delta) 100 =
      ((frameStep acc delta).1 : ℚ) * FIXED_TIME_STEP + (frameStep acc delta).2.1 ∧
    0 ≤ (frameStep acc delta).2.1 ∧
    (frameStep acc delta).2.1 < FIXED_TIME_STEP := by
  have hmin : (if acc + delta > 100 then (100:ℚ) else acc + delta) = min (acc + delta) 100 := by
    rcases le_or_lt (acc + delta) 100 with hle | hgt
    · rw [if_neg (not_lt.2 hle), min_eq_left hle]
    · rw [if_pos hgt, min_eq_right hgt.le]
  have hnn : 0 ≤ min (acc + delta) 100 := le_min (by linarith) (by norm_num)
  have hs := drain_spec (min (acc + delta) 100) hnn
  simp only [frameStep, hmin]
  exact ⟨trivial, hs.1, hs.2.1, hs.2.2⟩

theorem C5_fixed_step_driver_witness :
    (0:ℚ) ≤ 10 ∧ (0:ℚ) ≤ 41 ∧
    ((frameStep 10 41).2.2 = 1 ∧
     min (10 + 41 : ℚ) 100 =
       ((frameStep 10 41).1 : ℚ) * FIXED_TIME_STEP + (frameStep 10 41).2.1 ∧
     0 ≤ (frameStep 10 41).2.1 ∧
     (frameStep 10 41).2.1 < FIXED_TIME_STEP) :=
  ⟨by norm_num, by norm_num,
   C5_fixed_step_driver 10 41 (by norm_num) (by norm_num)⟩

end Wukong
namespace Wukong

theorem resolveLightAttack_grounded (w : World) :
    resolveLightAttack true w =
      groundedComboStep w { w.player with hasDealtDamage := false } := by
  simp [resolveLightAttack]

theorem finishAttackStart_fields (w : World) :
    (finishAttackStart w).player.comboCount = w.player.comboCount ∧
    (finishAttackStart w).player.vy = w.player.vy ∧
    (finishAttackStart w).player.hasDealtDamage = w.player.hasDealtDamage := by
  simp only [finishAttackStart]
  split_ifs <;> simp

theorem groundedComboStep_spec (w : World) (p : Entity) :
    (groundedComboStep w p).2 = false ∧
    (groundedComboStep w p).1.player.comboCount =
      (if p.comboCount > 0 then p.comboCount % 4 + 1 else 1) ∧
    ((if p.comboCount > 0 then p.comboCount % 4 + 1 else 1) = 3 →
      (groundedComboStep w p).1.player.vy = -11/2) ∧
    ((if p.comboCount > 0 then p.comboCount % 4 + 1 else 1) = 4 →
      (groundedComboStep w p).1.player.vy = -5) ∧
    (groundedComboStep w p).1.player.hasDealtDamage = p.hasDealtDamage := by
  simp only [groundedComboStep, finishAttackStart_fields]
  split_ifs <;> simp_all [finishAttackStart_fields]

/-- C6: a grounded light-attack release always enters the combo step;
the counter advances cyclically `c % 4 + 1` (so 1→2→3→4→1, and 1 from
0), the advances into counts 3 and 4 set the upward launcher/slam
velocities −5.5 and −5, the dedup flag ends the step cleared, the new
count stays in {0,…,4}, and a full `update` tick keeps
`comboCount ≤ 4` from any state that satisfies it. -/
theorem C6_combo_cycle (dp : DebugParams) (trig : TrigOracle) (rng : Rng) (inp : Input)
    (w : World) (h4 : w.player.comboCount ≤ 4) :
    (resolveLightAttack true w).2 = false ∧
    (resolveLightAttack true w).1.player.comboCount =
      (if w.player.comboCount > 0 then w.player.comboCount % 4 + 1 else 1) ∧
    ((resolveLightAttack true w).1.player.comboCount = 3 →
      (resolveLightAttack true w).1.player.vy = -11/2) ∧
    ((resolveLightAttack true w).1.player.comboCount = 4 →
      (resolveLightAttack true w).1.player.vy = -5) ∧
    (resolveLightAttack true w).1.player.hasDealtDamage = false ∧
    (resolveLightAttack true w).1.player.comboCount ≤ 4 ∧
    (update dp trig rng inp w).player.comboCount ≤ 4 := by
  have hs := groundedComboStep_spec w { w.player with hasDealtDamage := false }
  rw [resolveLightAttack_grounded]
  simp only at hs
  refine ⟨hs.1, hs.2.1, ?_, ?_, hs.2.2.2.2, ?_, update_comboCount dp trig rng inp w h4⟩
  · intro h3
    exact hs.2.2.1 (by rw [← hs.2.1]; exact h3)
  · intro h4'
    exact hs.2.2.2.1 (by rw [← hs.2.1]; exact h4')
  · rw [hs.2.1]
    split_ifs <;> omega

theorem C6_combo_cycle_witness :
    initialWorld.player.comboCount ≤ 4 ∧
    ((resolveLightAttack true initialWorld).2 = false ∧
     (resolveLightAttack true initialWorld).1.player.comboCount =
       (if initialWorld.player.comboCount > 0
        then initialWorld.player.comboCount % 4 + 1 else 1) ∧
     ((resolveLightAttack true initialWorld).1.player.comboCount = 3 →
       (resolveLightAttack true initialWorld).1.player.vy = -11/2) ∧
     ((resolveLightAttack true initialWorld).1.player.comboCount = 4 →
       (resolveLightAttack true initialWorld).1.player.vy = -5) ∧
     (resolveLightAttack true initialWorld).1.player.hasDealtDamage = false ∧
     (resolveLightAttack true initialWorld).1.player.comboCount ≤ 4 ∧
     (update defaultDebugParams trig0 rngHalf inp0 initialWorld).player.comboCount ≤ 4) :=
  ⟨by with_unfolding_all decide,
   C6_combo_cycle defaultDebugParams trig0 rngHalf inp0 initialWorld
     (by with_unfolding_all decide)⟩

end Wukong
namespace Wukong

theorem spellStep_skip (rng : Rng) (inp : Input) (w : World) (h : inp.spell = false) :
    spellStep rng inp w = w := by
  simp [spellStep, h]

theorem cooldownStep_fields (w : World) :
    (cooldownStep w).boss = w.boss ∧
    (cooldownStep w).particles = w.particles ∧
    (cooldownStep w).cameraX = w.cameraX ∧
    (cooldownStep w).gameState = w.gameState ∧
    (cooldownStep w).player.state = w.player.state ∧
    (cooldownStep w).player.chargeTimer = w.player.chargeTimer ∧
    (cooldownStep w).player.posX = w.player.posX ∧
    (cooldownStep w).player.posY = w.player.posY ∧
    (cooldownStep w).player.height = w.player.height ∧
    (cooldownStep w).player.hitStop = w.player.hitStop ∧
    (cooldownStep w).player.isDead = w.player.isDead ∧
    ((cooldownStep w).player.comboCount = w.player.comboCount ∨
     (cooldownStep w).player.comboCount = 0) := by
  simp only [cooldownStep]
  split_ifs <;> simp

theorem trailStep_misc (dp : DebugParams) (w : World) :
    (trailStep dp w).particles = w.particles ∧
    (trailStep dp w).cameraX = w.cameraX ∧
    (trailStep dp w).gameState = w.gameState := by
  simp only [trailStep]
  rcases h : w.prevCombo4Time with _ | prevT <;> simp only [h] <;> split_ifs <;> simp

theorem playerActionStep_whiff (rng : Rng) (inp : Input) (w : World)
    (hd : inp.dodge = false) (ha : inp.attack = false)
    (hsd : w.player.state ≠ EState.dodge) (hsh : w.player.state ≠ EState.hit)
    (hct0 : w.player.chargeTimer > 0) (hct20 : ¬(w.player.chargeTimer > CHARGE_THRESHOLD))
    (hsa : w.player.state ≠ EState.air_attack) (hc3 : w.player.comboCount ≠ 3)
    (hclose : ¬(GROUND_Y - (w.player.posY + w.player.height) > 50)) :
    playerActionStep rng inp false w =
      ({ w with player := { w.player with hasDealtDamage := false, chargeTimer := 0 } },
       true) := by
  simp only [playerActionStep, resolveLightAttack, airLightStep, hd, ha]
  simp [hsd, hsh, hct0, hct20, hsa, hc3, hclose]

end Wukong
namespace Wukong

theorem playerPhase_whiff (dp : DebugParams) (trig : TrigOracle) (rng : Rng) (inp : Input)
    (w : World)
    (hHS : w.player.hitStop = 0) (hDead : w.player.isDead = false)
    (hair : ¬(w.player.posY + w.player.height ≥ GROUND_Y))
    (hclose : ¬(GROUND_Y - (w.player.posY + w.player.height) > 50))
    (hc3 : w.player.comboCount ≠ 3) (hsa : w.player.state ≠ EState.air_attack)
    (hsd : w.player.state ≠ EState.dodge) (hsh : w.player.state ≠ EState.hit)
    (hd : inp.dodge = false) (ha : inp.attack = false) (hsp : inp.spell = false)
    (hct0 : w.player.chargeTimer > 0) (hct20 : ¬(w.player.chargeTimer > CHARGE_THRESHOLD)) :
    (playerPhase dp trig rng inp w).2 = true ∧
    (playerPhase dp trig rng inp w).1.boss = w.boss ∧
    (playerPhase dp trig rng inp w).1.particles = w.particles ∧
    (playerPhase dp trig rng inp w).1.cameraX = w.cameraX ∧
    (playerPhase dp trig rng inp w).1.gameState = w.gameState ∧
    (playerPhase dp trig rng inp w).1.player.state = w.player.state ∧
    (playerPhase dp trig rng inp w).1.player.posX = w.player.posX ∧
    (playerPhase dp trig rng inp w).1.player.posY = w.player.posY ∧
    (playerPhase dp trig rng inp w).1.player.chargeTimer = 0 := by
  have hcf := cooldownStep_fields w
  have htf := trailStep_frame dp (cooldownStep w)
  have htm := trailStep_misc dp (cooldownStep w)
  have hsp2 : spellStep rng inp (trailStep dp (cooldownStep w)) =
      trailStep dp (cooldownStep w) := spellStep_skip rng inp _ hsp
  have hp2 : (trailStep dp (cooldownStep w)).player = (cooldownStep w).player := htf.1
  have hwhiff := playerActionStep_whiff rng inp (trailStep dp (cooldownStep w)) hd ha
    (by rw [hp2, hcf.2.2.2.2.1]; exact hsd)
    (by rw [hp2, hcf.2.2.2.2.1]; exact hsh)
    (by rw [hp2, hcf.2.2.2.2.2.1]; exact hct0)
    (by rw [hp2, hcf.2.2.2.2.2.1]; exact hct20)
    (by rw [hp2, hcf.2.2.2.2.1]; exact hsa)
    (by rw [hp2]
        rcases hcf.2.2.2.2.2.2.2.2.2.2.2 with hc | hc <;> rw [hc] <;> omega)
    (by rw [hp2, hcf.2.2.2.2.2.2.2.1, hcf.2.2.2.2.2.2.2.2.1]; exact hclose)
  have hog : (decide (w.player.posY + w.player.height ≥ GROUND_Y)) = false := by
    simp [hair]
  simp only [playerPhase]
  rw [if_neg (by omega : ¬ w.player.hitStop > 0)]
  rw [if_neg (by simp [hDead])]
  rw [hog, hsp2, hwhiff]
  simp only [hp2]
  simp [hcf.1, hcf.2.1, hcf.2.2.1, hcf.2.2.2.1, hcf.2.2.2.2.1, hcf.2.2.2.2.2.2.1,
    hcf.2.2.2.2.2.2.2.1, htm.1, htm.2.1, htm.2.2, htf.2]

end Wukong
namespace Wukong

/-- C7 (amended): the ignored too-close-to-ground light attack does leave
the player's state untouched and zeroes the charge, but the bare
`return` it hits aborts the WHOLE tick: the boss, the particle pool and
the camera are left exactly as they were, instead of being simulated as
on any other tick (see `C7_tick_abort_counterexample`). -/
theorem C7_air_whiff_aborts_tick (dp : DebugParams) (trig : TrigOracle) (rng : Rng)
    (inp : Input) (w : World)
    (hGS : w.gameState = GameState.PLAYING)
    (hHS : w.player.hitStop = 0) (hDead : w.player.isDead = false)
    (hair : ¬(w.player.posY + w.player.height ≥ GROUND_Y))
    (hclose : ¬(GROUND_Y - (w.player.posY + w.player.height) > 50))
    (hc3 : w.player.comboCount ≠ 3) (hsa : w.player.state ≠ EState.air_attack)
    (hsd : w.player.state ≠ EState.dodge) (hsh : w.player.state ≠ EState.hit)
    (hd : inp.dodge = false) (ha : inp.attack = false) (hsp : inp.spell = false)
    (hct0 : w.player.chargeTimer > 0) (hct20 : ¬(w.player.chargeTimer > CHARGE_THRESHOLD)) :
    (update dp trig rng inp w).boss = w.boss ∧
    (update dp trig rng inp w).particles = w.particles ∧
    (update dp trig rng inp w).cameraX = w.cameraX ∧
    (update dp trig rng inp w).player.state = w.player.state ∧
    (update dp trig rng inp w).player.posX = w.player.posX ∧
    (update dp trig rng inp w).player.posY = w.player.posY ∧
    (update dp trig rng inp w).player.chargeTimer = 0 := by
  have hsf := shakeDecay_frame w
  have hpw := playerPhase_whiff dp trig rng inp (shakeDecay w)
    (by rw [hsf.1]; exact hHS) (by rw [hsf.1]; exact hDead)
    (by rw [hsf.1]; exact hair) (by rw [hsf.1]; exact hclose)
    (by rw [hsf.1]; exact hc3) (by rw [hsf.1]; exact hsa)
    (by rw [hsf.1]; exact hsd) (by rw [hsf.1]; exact hsh)
    hd ha hsp
    (by rw [hsf.1]; exact hct0) (by rw [hsf.1]; exact hct20)
  simp only [update]
  rw [if_neg (by simp [hGS])]
  rcases hR : playerPhase dp trig rng inp (shakeDecay w) with ⟨w1, halted⟩
  rw [hR] at hpw
  simp only at hpw
  have hh : halted = true := hpw.1
  subst hh
  simp only [hR]
  simp only [if_pos]
  exact ⟨by rw [hpw.2.1, hsf.2.1], by rw [hpw.2.2.1, hsf.2.2.1],
         by rw [hpw.2.2.2.1, hsf.2.2.2.1],
         by rw [hpw.2.2.2.2.2.1, hsf.1],
         by rw [hpw.2.2.2.2.2.2.1, hsf.1],
         by rw [hpw.2.2.2.2.2.2.2.1, hsf.1],
         hpw.2.2.2.2.2.2.2.2⟩

/-- A falling player 30 px above the ground, five ticks into an uncharged
press that is released this tick, next to a boss seven ticks from
attacking. -/
def wC7cex : World :=
  { initialWorld with
    player := { initialPlayer with state := EState.fall, posY := 320, chargeTimer := 5 },
    boss := { initialBoss with posY := 300, attackCooldown := 7 } }

/-- The identical world without the pending attack release. -/
def wC7ctrl : World :=
  { wC7cex with player := { initialPlayer with state := EState.fall, posY := 320 } }

theorem C7_air_whiff_aborts_tick_witness :
    (update defaultDebugParams trig0 rngHalf inp0 wC7cex).boss = wC7cex.boss ∧
    (update defaultDebugParams trig0 rngHalf inp0 wC7cex).particles = wC7cex.particles ∧
    (update defaultDebugParams trig0 rngHalf inp0 wC7cex).cameraX = wC7cex.cameraX ∧
    (update defaultDebugParams trig0 rngHalf inp0 wC7cex).player.state =
      wC7cex.player.state ∧
    (update defaultDebugParams trig0 rngHalf inp0 wC7cex).player.posX =
      wC7cex.player.posX ∧
    (update defaultDebugParams trig0 rngHalf inp0 wC7cex).player.posY =
      wC7cex.player.posY ∧
    (update defaultDebugParams trig0 rngHalf inp0 wC7cex).player.chargeTimer = 0 :=
  C7_air_whiff_aborts_tick defaultDebugParams trig0 rngHalf inp0 wC7cex
    rfl rfl rfl (by with_unfolding_all decide) (by with_unfolding_all decide)
    (by with_unfolding_all decide) (by with_unfolding_all decide)
    (by with_unfolding_all decide) (by with_unfolding_all decide)
    rfl rfl rfl (by with_unfolding_all decide) (by with_unfolding_all decide)

/-- C7 counterexample: on the whiff tick the boss's attack cooldown does
not move (the tick aborted), while the otherwise-identical world with no
pending release sees the cooldown tick 7 → 6 — the rest of the
simulation does NOT execute as on any other tick. -/
theorem C7_tick_abort_counterexample :
    (update defaultDebugParams trig0 rngHalf inp0 wC7cex).boss.attackCooldown = 7 ∧
    (update defaultDebugParams trig0 rngHalf inp0 wC7ctrl).boss.attackCooldown = 6 := by
  with_unfolding_all decide

end Wukong
